import Mathlib

/-!
Shallow embedding of election-orchestra's ceremony-coordination core
(`create_election/performer_jobs.py`) together with theorems checking the
natural-language specification against it.

Python's loosely typed dictionaries are modelled by the inductive type `Val`
(JSON-like values plus `datetime` objects).  The filesystem is an explicit
record of directories and files; the persistence store is a record of
`Election`/`Authority`/`Session` rows.  External collaborators (the `json`
parser, the verificatum binaries `vmni`/`vmn`/`vmnc`, the frestq transport)
are taken as function parameters or modelled from the spec where noted.
Python exceptions escaping a step are modelled by `Err`: `TaskError`s carry
their reason string, any other exception is a `pyError`.
-/

set_option maxHeartbeats 1600000
set_option maxRecDepth 4000
set_option linter.unreachableTactic false
set_option linter.unnecessarySeqFocus false
set_option linter.unusedTactic false

namespace PerformerJobs

/-- A Python value as it appears in the task payloads handled by
`performer_jobs.py`: strings, booleans, integers, `datetime` objects
(abstracted to a totally ordered timestamp), `None`, lists and dicts. -/
inductive Val where
  | str (s : String)
  | boolean (b : Bool)
  | int (n : Int)
  | date (d : Nat)
  | null
  | list (l : List Val)
  | dict (d : List (String × Val))

mutual

/-- Structural equality on `Val` (Python `==` on these values). -/
def Val.beq : Val → Val → Bool
  | .str a, .str b => a == b
  | .boolean a, .boolean b => a == b
  | .int a, .int b => a == b
  | .date a, .date b => a == b
  | .null, .null => true
  | .list a, .list b => Val.beqList a b
  | .dict a, .dict b => Val.beqDict a b
  | _, _ => false

def Val.beqList : List Val → List Val → Bool
  | [], [] => true
  | x :: xs, y :: ys => Val.beq x y && Val.beqList xs ys
  | _, _ => false

def Val.beqDict : List (String × Val) → List (String × Val) → Bool
  | [], [] => true
  | (k, v) :: xs, (k2, v2) :: ys => k == k2 && Val.beq v v2 && Val.beqDict xs ys
  | _, _ => false

end

mutual

theorem Val.eq_of_beq : ∀ a b : Val, Val.beq a b = true → a = b
  | .str a, .str b, h => by simp [Val.beq] at h; rw [h]
  | .boolean a, .boolean b, h => by simp [Val.beq] at h; rw [h]
  | .int a, .int b, h => by simp [Val.beq] at h; rw [h]
  | .date a, .date b, h => by simp [Val.beq] at h; rw [h]
  | .null, .null, _ => rfl
  | .list a, .list b, h => by
      rw [Val.eqList_of_beqList a b (by simpa [Val.beq] using h)]
  | .dict a, .dict b, h => by
      rw [Val.eqDict_of_beqDict a b (by simpa [Val.beq] using h)]

theorem Val.eqList_of_beqList : ∀ xs ys : List Val, Val.beqList xs ys = true → xs = ys
  | [], [], _ => rfl
  | x :: xs, y :: ys, h => by
      simp only [Val.beqList, Bool.and_eq_true] at h
      rw [Val.eq_of_beq x y h.1, Val.eqList_of_beqList xs ys h.2]

theorem Val.eqDict_of_beqDict :
    ∀ xs ys : List (String × Val), Val.beqDict xs ys = true → xs = ys
  | [], [], _ => rfl
  | (k, v) :: xs, (k2, v2) :: ys, h => by
      simp only [Val.beqDict, Bool.and_eq_true] at h
      rw [beq_iff_eq] at h
      rw [h.1.1, Val.eq_of_beq v v2 h.1.2, Val.eqDict_of_beqDict xs ys h.2]

end

mutual

theorem Val.beq_self : ∀ a : Val, Val.beq a a = true
  | .str a => by simp [Val.beq]
  | .boolean a => by simp [Val.beq]
  | .int a => by simp [Val.beq]
  | .date a => by simp [Val.beq]
  | .null => rfl
  | .list a => by simpa [Val.beq] using Val.beqList_self a
  | .dict a => by simpa [Val.beq] using Val.beqDict_self a

theorem Val.beqList_self : ∀ xs : List Val, Val.beqList xs xs = true
  | [] => rfl
  | x :: xs => by simp [Val.beqList, Val.beq_self x, Val.beqList_self xs]

theorem Val.beqDict_self : ∀ xs : List (String × Val), Val.beqDict xs xs = true
  | [] => rfl
  | (k, v) :: xs => by simp [Val.beqDict, Val.beq_self v, Val.beqDict_self xs]

end

instance : DecidableEq Val := fun a b =>
  if h : Val.beq a b = true then .isTrue (Val.eq_of_beq a b h)
  else .isFalse (fun hh => h (hh ▸ Val.beq_self a))

/-- A Python dict with string keys. -/
abbrev Dict := List (String × Val)

/-- First binding of key `k` in a dict (Python `d[k]` / `d.get(k)`). -/
def dGet? : Dict → String → Option Val
  | [], _ => none
  | (k2, v) :: rest, k => if k2 = k then some v else dGet? rest k

/-- Python `k in d`. -/
def dMem (d : Dict) (k : String) : Bool := (dGet? d k).isSome

/-- Python `d.get(k, v0)`. -/
def dGetD (d : Dict) (k : String) (v0 : Val) : Val := (dGet? d k).getD v0

def Val.isStr : Val → Bool
  | .str _ => true
  | _ => false

def Val.isBool : Val → Bool
  | .boolean _ => true
  | _ => false

def Val.isList : Val → Bool
  | .list _ => true
  | _ => false

def Val.isDict : Val → Bool
  | .dict _ => true
  | _ => false

def Val.isDate : Val → Bool
  | .date _ => true
  | _ => false

def Val.isNull : Val → Bool
  | .null => true
  | _ => false

def Val.asStr : Val → String
  | .str s => s
  | _ => ""

def Val.asList : Val → List Val
  | .list l => l
  | _ => []

def Val.asDict : Val → Dict
  | .dict d => d
  | _ => []

/-- A filesystem path, as the list of components joined by `os.path.join`. -/
abbrev Path := List String

/-- Filesystem state: the set of directories and the files with contents.
Writing a file prepends to `files`; look-ups take the first (latest) entry. -/
structure FS where
  dirs : List Path
  files : List (Path × String)
deriving DecidableEq

def lookupFile : List (Path × String) → Path → Option String
  | [], _ => none
  | (p, c) :: rest, q => if p = q then some c else lookupFile rest q

def memPath : List Path → Path → Bool
  | [], _ => false
  | q :: rest, p => if q = p then true else memPath rest p

def FS.fileContent (fs : FS) (p : Path) : Option String := lookupFile fs.files p

def FS.fileExists (fs : FS) (p : Path) : Bool := (fs.fileContent p).isSome

def FS.isDir (fs : FS) (p : Path) : Bool := memPath fs.dirs p

/-- Python `os.path.exists`: true for a directory or a file. -/
def FS.pathExists (fs : FS) (p : Path) : Bool := fs.isDir p || fs.fileExists p

def FS.writeFile (fs : FS) (p : Path) (c : String) : FS :=
  { fs with files := (p, c) :: fs.files }

/-- Every nonempty prefix of a path, shortest first. -/
def pathAncestors (p : Path) : List Path :=
  (List.range p.length).map (fun i => p.take (i + 1))

/-- `utils.mkdir_recursive`: create the directory and all its ancestors. -/
def FS.mkdirRecursive (fs : FS) (p : Path) : FS :=
  { fs with dirs := pathAncestors p ++ fs.dirs }

/-- A row of the `Election` table, as created in `generate_private_info`.
The fields that the code stores without validating their type
(`questions_data`, the voting dates, `is_recurring`, `num_parties`,
`threshold_parties`) keep their raw `Val`. -/
structure Election where
  id : String
  title : String
  url : String
  description : String
  questions_data : Val
  voting_start_date : Val
  voting_end_date : Val
  is_recurring : Val
  num_parties : Val
  threshold_parties : Val
deriving DecidableEq

structure Authority where
  name : String
  ssl_cert : String
  orchestra_url : String
  election_id : String
deriving DecidableEq

structure Session where
  id : String
  election_id : String
  status : String
  public_key : String
  question_number : Nat
deriving DecidableEq

/-- The persistence store (the SQLAlchemy session's committed contents). -/
structure DB where
  elections : List Election
  authorities : List Authority
  sessions : List Session
deriving DecidableEq

/-- The observable state a performer-job step reads and writes. -/
structure OState where
  db : DB
  fs : FS
deriving DecidableEq

/-- `app.config` values read by the jobs.  `max_num_questions` is
`MAX_NUM_QUESTIONS_PER_ELECTION` with the default 10 already applied;
`server_url` and `hint_server_url` are the values of `utils.get_server_url`
and `utils.get_hint_server_url`. -/
structure Config where
  private_data_path : Path
  public_data_path : Path
  root_url : String
  ssl_cert_string : String
  autoaccept_requests : Bool
  max_num_questions : Nat
  server_url : String
  hint_server_url : String

/-- Failure of a step: a raised `TaskError` with its reason dict's string, or
any other Python exception escaping the task body. -/
inductive Err where
  | taskError (reason : String)
  | pyError (kind : String)
deriving DecidableEq

deriving instance DecidableEq for Except

/-- Python `json.loads` applied to a task-payload value.  The parser itself is
an external library, passed in as `jl`; `none` models any exception raised by
it.  `json.loads` of a non-string (in particular of `None`, when the key is
absent) raises, hence `none`. -/
def loadsVal (jl : String → Option Val) : Val → Option Val
  | .str s => jl s
  | _ => none

/-- A character of the class `[a-zA-Z0-9_-]`. -/
def idChar (c : Char) : Bool := c.isAlphanum || c = '_' || c = '-'

/-- Python `re.match("^[a-zA-Z0-9_-]+$", s) is not None`: one or more
characters of the class spanning the whole string, where Python's `$` also
matches just before a single trailing newline. -/
def reMatchIdFull (s : String) : Bool :=
  let core := if s.data.getLast? = some '\n' then s.data.dropLast else s.data
  core.length > 0 && core.all idChar

/-- One entry of the `requirements` / `auth_reqs` lists in
`check_election_data`: a key name and its `isinstance` check. -/
structure Req where
  name : String
  check : Val → Bool

/-- Python `req['name'] not in data or not isinstance(data[req['name']], ...)`. -/
def fieldBad (data : Dict) (name : String) (check : Val → Bool) : Bool :=
  !dMem data name || !check (dGetD data name Val.null)

/-- The loop `for req in requirements`, producing the first failure. -/
def checkReqs (data : Dict) : List Req → Option String
  | [] => none
  | r :: rest =>
      if fieldBad data r.name r.check then some ("invalid " ++ r.name ++ " parameter")
      else checkReqs data rest

def baseReqs : List Req :=
  [⟨"election_id", Val.isStr⟩, ⟨"title", Val.isStr⟩, ⟨"url", Val.isStr⟩,
   ⟨"description", Val.isStr⟩, ⟨"is_recurring", Val.isBool⟩,
   ⟨"authorities", Val.isList⟩]

def extraReqs : List Req :=
  [⟨"callback_url", Val.isStr⟩, ⟨"extra", Val.isList⟩,
   ⟨"questions_data", Val.isList⟩]

def authReqs : List Req :=
  [⟨"name", Val.isStr⟩, ⟨"orchestra_url", Val.isStr⟩, ⟨"ssl_cert", Val.isStr⟩]

/-- The voting-date failure condition of lines 67-73:
`key not in data or (data[key] is not None and not isinstance(data[key], datetime))`. -/
def votingDateBad (data : Dict) (key : String) : Bool :=
  !dMem data key ||
    (!(dGetD data key Val.null).isNull && !(dGetD data key Val.null).isDate)

/-- Whether `needle` occurs as a contiguous substring of `hay`. -/
def strContains (hay needle : String) : Bool :=
  (List.range (hay.length + 1)).any (fun i => needle.data.isPrefixOf (hay.data.drop i))

/-- Python `key in container` on a task-payload value: key membership for a
dict, substring for a string, element membership (`==` against each element,
never true for a non-string element) for a list; on any other value `in`
raises `TypeError`, modelled as `none`. -/
def pyIn (key : String) : Val → Option Bool
  | Val.dict d => some (dMem d key)
  | Val.str s => some (strContains s key)
  | Val.list l => some (decide (Val.str key ∈ l))
  | _ => none

/-- One `req` of `auth_reqs` against one authority entry, as lines 99-101
evaluate it: `req['name'] not in adata` runs first and raises `TypeError` for
an entry that is neither a dict, a string nor a list; when the membership test
succeeds, `adata[req['name']]` raises `TypeError` for a string or list entry,
so only dict entries reach the `isinstance` check. -/
def authReqCheck (req : Req) (a : Val) : Option Err :=
  match pyIn req.name a with
  | none => some (Err.pyError "TypeError")
  | some false => some (Err.taskError ("invalid " ++ req.name ++ " parameter"))
  | some true =>
    match a with
    | Val.dict d =>
      if req.check (dGetD d req.name Val.null) then none
      else some (Err.taskError ("invalid " ++ req.name ++ " parameter"))
    | _ => some (Err.pyError "TypeError")

/-- The inner `for req in auth_reqs` loop for one authority entry, producing
its first failure. -/
def authEntryCheck (a : Val) : Option Err :=
  authReqs.findSome? (fun req => authReqCheck req a)

/-- The `for adata in data['authorities']: for req in auth_reqs` loop,
producing the first failure: a typed `TaskError` for a missing or non-string
field, or an uncaught `TypeError` for a degenerate entry. -/
def checkAuthEntries (auths : List Val) : Option Err :=
  auths.findSome? authEntryCheck

/-- The nested helper `unique_by_keys(l, keys)` of `check_election_data`:
for every key, the number of distinct values (Python `set`) must equal the
number of entries. -/
def unique_by_keys (l : List Dict) (keys : List String) : Bool :=
  keys.all (fun k => (l.map (fun i => dGetD i k Val.null)).dedup.length == l.length)

/-- `check_election_data(data, check_extra)`: returns `.ok ()` when it falls
through, `.error (.taskError reason)` for a raised
`TaskError(dict(reason=...))`, and `.error (.pyError "TypeError")` when the
per-authority loop crashes on a degenerate entry.  It reads the store
(`Election.query`) but never mutates it. -/
def check_election_data (jl : String → Option Val) (cfg : Config) (db : DB)
    (data : Dict) (check_extra : Bool) : Except Err Unit :=
  let reqs := baseReqs ++ (if check_extra then extraReqs else [])
  let qd : Except Err Val :=
    if check_extra then .ok (dGetD data "questions_data" Val.null)
    else
      match loadsVal jl (dGetD data "questions_data" Val.null) with
      | some v => .ok v
      | none => .error (.taskError "questions_data is not in json")
  match qd with
  | .error e => .error e
  | .ok questions_data =>
    match checkReqs data reqs with
    | some r => .error (.taskError r)
    | none =>
      if votingDateBad data "voting_start_date" then
        .error (.taskError "invalid voting_start_date parameter")
      else if votingDateBad data "voting_end_date" then
        .error (.taskError "invalid voting_send_date parameter")
      else if !reMatchIdFull (Val.asStr (dGetD data "election_id" Val.null)) then
        .error (.taskError "invalid characters in election_id")
      else if (Val.asList (dGetD data "authorities" Val.null)).length = 0 then
        .error (.taskError "no authorities")
      else if !questions_data.isList || (Val.asList questions_data).length < 1 ||
          (Val.asList questions_data).length > cfg.max_num_questions then
        .error (.taskError "Unsupported number of questions in the election")
      else if check_extra &&
          (db.elections.any (fun e => e.id == Val.asStr (dGetD data "election_id" Val.null))) then
        .error (.taskError ("an election with id " ++ Val.asStr (dGetD data "election_id" Val.null) ++
          " already exists"))
      else
        match checkAuthEntries (Val.asList (dGetD data "authorities" Val.null)) with
        | some e => .error e
        | none =>
          if !unique_by_keys ((Val.asList (dGetD data "authorities" Val.null)).map Val.asDict)
              ["ssl_cert", "orchestra_url"] then
            .error (.taskError "invalid authorities parameters")
          else .ok ()

/-- Modelled from the spec: `certs_differ` lives in the external frestq
transport (`frestq.protocol`), outside this repository.  Per spec sections 4.2
and 9 the role comparison is an equality comparator on the two certificate
strings, so two certificates differ exactly when they are unequal. -/
def certs_differ (a b : String) : Bool := a != b

/-- A sub-task queued by `task.add` during `generate_private_info`. -/
inductive AddedTask where
  | external (label : String)
  | simple (action : String) (queue : String)
deriving DecidableEq

/-- The id of a session entry of the `sessions` payload list. -/
def sessId (s : Val) : String := Val.asStr (dGetD (Val.asDict s) "id" Val.null)

/-- The stub content of a session entry of the `sessions` payload list. -/
def stubOf (s : Val) : String := Val.asStr (dGetD (Val.asDict s) "stub" Val.null)

/-- The per-entry check of the `for session in input_data['sessions']` loop
(lines 131-136).  All branches of the `or`-chain raise the same `TaskError`,
except that `re.match` applied to a non-string id raises a `TypeError`. -/
def checkSessionEntry (s : Val) : Option Err :=
  if !s.isDict then some (.taskError "Invalid session data provided")
  else if !dMem (Val.asDict s) "id" then some (.taskError "Invalid session data provided")
  else if !dMem (Val.asDict s) "stub" then some (.taskError "Invalid session data provided")
  else if !(dGetD (Val.asDict s) "stub" Val.null).isStr then
    some (.taskError "Invalid session data provided")
  else
    match dGetD (Val.asDict s) "id" Val.null with
    | .str sid =>
        if !reMatchIdFull sid then some (.taskError "Invalid session data provided") else none
    | _ => some (.pyError "TypeError")

/-- The `for auth_data in input_data['authorities']` loop that sets
`auth_name` when `orchestra_url` equals the configured `ROOT_URL`
(last match wins; `none` models the initial Python `None`). -/
def computeAuthName (root_url : String) (auths : List Val) : Option String :=
  auths.foldl
    (fun acc a =>
      if Val.asStr (dGetD (Val.asDict a) "orchestra_url" Val.null) == root_url
      then some (Val.asStr (dGetD (Val.asDict a) "name" Val.null)) else acc)
    none

/-- Python falsiness of the `auth_name` variable: `None` or the empty string. -/
def optStrFalsy : Option String → Bool
  | none => true
  | some s => s == ""

/-- The state-independent prefix of `generate_private_info` (lines 117-145):
reading `election_id`, `check_election_data(input_data, False)`, the sessions
checks and the `auth_name` check, in source order.  Returns the first error. -/
def gpi_validate (jl : String → Option Val) (cfg : Config) (db : DB)
    (input_data : Dict) : Option Err :=
  match dGet? input_data "election_id" with
  | none => some (.pyError "KeyError")
  | some (.str _) =>
    match check_election_data jl cfg db input_data false with
    | .error e => some e
    | .ok _ =>
      if !(dGetD input_data "sessions" Val.null).isList ||
          (Val.asList (dGetD input_data "sessions" Val.null)).length = 0 then
        some (.taskError "No sessions provided")
      else
        match (Val.asList (dGetD input_data "sessions" Val.null)).findSome? checkSessionEntry with
        | some e => some e
        | none =>
          if optStrFalsy (computeAuthName cfg.root_url
              (Val.asList (dGetD input_data "authorities" Val.null))) then
            some (.taskError "trying to process what SEEMS to be an external election")
          else none
  | some _ => some (.pyError "TypeError")

/-- The loop of lines 151-155: fail if `localProtInfo.xml` already exists for
any session (the reason names the first such session). -/
def gpi_protinfo_guard (epriv : Path) (sessions : List Val) (fs : FS) : Option Err :=
  sessions.findSome? (fun s =>
    if fs.pathExists (epriv ++ [sessId s, "localProtInfo.xml"]) then
      some (Err.taskError ("session_id " ++ sessId s ++ " already created"))
    else none)

/-- The `Election(...)` constructor call of lines 162-173: raw payload values
are stored as they are. -/
def mkElection (input_data : Dict) : Election :=
  { id := Val.asStr (dGetD input_data "election_id" Val.null)
    title := Val.asStr (dGetD input_data "title" Val.null)
    url := Val.asStr (dGetD input_data "url" Val.null)
    description := Val.asStr (dGetD input_data "description" Val.null)
    questions_data := dGetD input_data "questions_data" Val.null
    voting_start_date := dGetD input_data "voting_start_date" Val.null
    voting_end_date := dGetD input_data "voting_end_date" Val.null
    is_recurring := dGetD input_data "is_recurring" Val.null
    num_parties := dGetD input_data "num_parties" Val.null
    threshold_parties := dGetD input_data "threshold_parties" Val.null }

/-- The `Authority(...)` rows of lines 176-183, one per entry, in list order. -/
def mkAuthorities (eid : String) (auths : List Val) : List Authority :=
  auths.map (fun a =>
    { name := Val.asStr (dGetD (Val.asDict a) "name" Val.null)
      ssl_cert := Val.asStr (dGetD (Val.asDict a) "ssl_cert" Val.null)
      orchestra_url := Val.asStr (dGetD (Val.asDict a) "orchestra_url" Val.null)
      election_id := eid })

/-- The session loop of lines 186-203: for the `i`-th session create the
`Session` row (status `'default'`, empty public key, `question_number = i`),
the session directory and the `stub.xml` file. -/
def bootstrapSessions (eid : String) (epriv : Path) :
    List Val → Nat → DB → FS → DB × FS
  | [], _, db, fs => (db, fs)
  | s :: rest, i, db, fs =>
    let row : Session :=
      { id := sessId s, election_id := eid, status := "default",
        public_key := "", question_number := i }
    let db1 := { db with sessions := db.sessions ++ [row] }
    let spriv := epriv ++ [sessId s]
    let fs1 := (fs.mkdirRecursive spriv).writeFile (spriv ++ ["stub.xml"]) (stubOf s)
    bootstrapSessions eid epriv rest (i + 1) db1 fs1

/-- `generate_private_info(task)`.  Parameters: the external `json` parser
`jl`, the configuration, the sender certificate from the task envelope, the
task's `input_data` dict and the observable state.  Returns the queued
sub-tasks (approval and/or verificatum) or the first error, together with the
resulting state.  All raises occur before any mutation (the single
`db.session.commit()` comes after them), so an error leaves the state
untouched. -/
def generate_private_info (jl : String → Option Val) (cfg : Config)
    (sender_ssl_cert : String) (input_data : Dict) (st : OState) :
    (Except Err (List AddedTask)) × OState :=
  match gpi_validate jl cfg st.db input_data with
  | some e => (.error e, st)
  | none =>
    let election_id := Val.asStr (dGetD input_data "election_id" Val.null)
    let epriv := cfg.private_data_path ++ [election_id]
    let sessions := Val.asList (dGetD input_data "sessions" Val.null)
    match gpi_protinfo_guard epriv sessions st.fs with
    | some e => (.error e, st)
    | none =>
      let staged : (Except Err (Option Election)) × OState :=
        if certs_differ sender_ssl_cert cfg.ssl_cert_string then
          if st.fs.pathExists epriv then
            (.error (.taskError ("Already existing election id " ++ election_id)), st)
          else if !dMem input_data "num_parties" || !dMem input_data "threshold_parties" then
            (.error (.pyError "KeyError"), st)
          else
            let auths := Val.asList (dGetD input_data "authorities" Val.null)
            let election := mkElection input_data
            let db1 := { st.db with
              elections := st.db.elections ++ [election]
              authorities := st.db.authorities ++ mkAuthorities election_id auths }
            let committed := bootstrapSessions election_id epriv sessions 0 db1 st.fs
            (.ok (some election), ⟨committed.1, committed.2⟩)
        else
          (.ok (st.db.elections.find? (fun e => e.id == election_id)), st)
      match staged with
      | (.error e, st2) => (.error e, st2)
      | (.ok election?, st2) =>
        if !cfg.autoaccept_requests then
          match election? with
          | none => (.error (.pyError "AttributeError"), st2)
          | some _e =>
            match loadsVal jl (dGetD input_data "questions_data" Val.null) with
            | none => (.error (.pyError "ValueError"), st2)
            | some _q =>
              (.ok [.external "approve_election",
                    .simple "generate_private_info_verificatum" "orchestra_performer"], st2)
        else
          (.ok [.simple "generate_private_info_verificatum" "orchestra_performer"], st2)

/-- The only approval decision that lets the ceremony continue:
`dict(status="accepted")`. -/
def acceptedDecision : Val := Val.dict [("status", Val.str "accepted")]

/-- The CryptoEngine invocation `vmni -party ... -name NAME -http URL -hint
HINT` run in a session directory.  Its observable behaviour is abstracted as a
function of its command line: `none` is a nonzero exit
(`subprocess.CalledProcessError`), `some c` a success that wrote the local
descriptor `localProtInfo.xml` with content `c` in the working directory. -/
abbrev VmniEngine := String → String → String → Path → Option String

/-- The `for session in sessions` loop of lines 283-295: run `vmni` in the
session directory, then read `localProtInfo.xml` back and collect it.
A `None` auth name makes `subprocess` raise a `TypeError` at the first
invocation; a session entry without a string id raises before it. -/
def vmni_loop (engine : VmniEngine) (auth_name : Option String)
    (surl hurl : String) (epriv : Path) :
    List Val → FS → (Except Err (List String)) × FS
  | [], fs => (.ok [], fs)
  | s :: rest, fs =>
    match s with
    | .dict d =>
      match dGet? d "id" with
      | none => (.error (.pyError "KeyError"), fs)
      | some (.str sid) =>
        let spriv := epriv ++ [sid]
        match auth_name with
        | none => (.error (.pyError "TypeError"), fs)
        | some nm =>
          match engine nm surl hurl spriv with
          | none => (.error (.pyError "CalledProcessError"), fs)
          | some content =>
            let fs1 := fs.writeFile (spriv ++ ["localProtInfo.xml"]) content
            match fs1.fileContent (spriv ++ ["localProtInfo.xml"]) with
            | none => (.error (.pyError "IOError"), fs1)
            | some c =>
              match vmni_loop engine auth_name surl hurl epriv rest fs1 with
              | (.ok cs, fs2) => (.ok (c :: cs), fs2)
              | (.error e, fs2) => (.error e, fs2)
      | some _ => (.error (.pyError "TypeError"), fs)
    | _ => (.error (.pyError "TypeError"), fs)

/-- `generate_private_info_verificatum(task)`.  `prev_output` is
`task.get_prev().get_data()['output_data']` (the approval decision);
`parent_input` is the parent task's `input_data`.  On success the returned
list is what `task.get_parent().set_output_data(protinfos, ...)` reports back;
on error nothing is reported.  `vmni` side effects performed before a failure
persist in the returned state. -/
def generate_private_info_verificatum (cfg : Config) (engine : VmniEngine)
    (prev_output : Val) (parent_input : Dict) (st : OState) :
    (Except Err (List String)) × OState :=
  if !cfg.autoaccept_requests && !(prev_output = acceptedDecision : Bool) then
    (.error (.taskError "task not accepted"), st)
  else
    match dGet? parent_input "election_id" with
    | none => (.error (.pyError "KeyError"), st)
    | some eidV =>
      match dGet? parent_input "sessions" with
      | none => (.error (.pyError "KeyError"), st)
      | some sessionsV =>
        match dGet? parent_input "authorities" with
        | none => (.error (.pyError "KeyError"), st)
        | some authsV =>
          if !authsV.isList then (.error (.pyError "TypeError"), st)
          else
            let _election := st.db.elections.find? (fun e => e.id == Val.asStr eidV)
            let auth_name := computeAuthName cfg.root_url (Val.asList authsV)
            match eidV with
            | .str election_id =>
              if !sessionsV.isList then (.error (.pyError "TypeError"), st)
              else
                let epriv := cfg.private_data_path ++ [election_id]
                match vmni_loop engine auth_name
                    cfg.server_url cfg.hint_server_url epriv (Val.asList sessionsV) st.fs with
                | (.ok protinfos, fs2) => (.ok protinfos, { st with fs := fs2 })
                | (.error e, fs2) => (.error e, { st with fs := fs2 })
            | _ => (.error (.pyError "TypeError"), st)

/-- The CryptoEngine invocation `vmn -keygen publicKey_raw`: `none` is a
nonzero exit, `some c` a success writing `publicKey_raw` with content `c` in
the working directory. -/
abbrev VmnEngine := Path → Option String

/-- The CryptoEngine invocation `vmnc -pkey -outi json publicKey_raw
publicKey_json`: `none` is a nonzero exit, `some c` a success writing
`publicKey_json` with content `c` in the working directory. -/
abbrev VmncEngine := Path → Option String

/-- The tail of `generate_public_key` from the `vmn -keygen` call on (lines
326-345): generate the raw key, transcode it, create the public mirror
directory if absent and copy the encoded key and the merged descriptor
there.  `fs1` is the filesystem after the `protInfo.xml` staging. -/
def gpk_generate_publish (cfg : Config) (vmn : VmnEngine) (vmnc : VmncEngine)
    (election_id session_id : String) (fs1 : FS) : (Except Err Unit) × FS :=
  let spriv := cfg.private_data_path ++ [election_id, session_id]
  match vmn spriv with
  | none => (.error (.pyError "CalledProcessError"), fs1)
  | some rawC =>
    let fs2 := fs1.writeFile (spriv ++ ["publicKey_raw"]) rawC
    match vmnc spriv with
    | none => (.error (.pyError "CalledProcessError"), fs2)
    | some jsonC =>
      let fs3 := fs2.writeFile (spriv ++ ["publicKey_json"]) jsonC
      let spub := cfg.public_data_path ++ [election_id, session_id]
      let fs4 := if fs3.pathExists spub then fs3 else fs3.mkdirRecursive spub
      match fs4.fileContent (spriv ++ ["publicKey_json"]) with
      | none => (.error (.pyError "IOError"), fs4)
      | some pj =>
        let fs5 := fs4.writeFile (spub ++ ["publicKey_json"]) pj
        match fs5.fileContent (spriv ++ ["protInfo.xml"]) with
        | none => (.error (.pyError "IOError"), fs5)
        | some pc => (.ok (), fs5.writeFile (spub ++ ["protInfo.xml"]) pc)

/-- `generate_public_key(task)`.  File writes done before a failure persist in
the returned filesystem. -/
def generate_public_key (cfg : Config) (vmn : VmnEngine) (vmnc : VmncEngine)
    (input_data : Dict) (fs : FS) : (Except Err Unit) × FS :=
  match dGet? input_data "session_id" with
  | none => (.error (.pyError "KeyError"), fs)
  | some sidV =>
    match dGet? input_data "election_id" with
    | none => (.error (.pyError "KeyError"), fs)
    | some eidV =>
      match sidV, eidV with
      | .str session_id, .str election_id =>
        let spriv := cfg.private_data_path ++ [election_id, session_id]
        if !fs.pathExists spriv then
          (.error (.taskError "invalid session_id / election_id"), fs)
        else if fs.pathExists (spriv ++ ["publicKey_raw"]) ||
            fs.pathExists (spriv ++ ["publicKey_json"]) then
          (.error (.taskError "pubkey already created"), fs)
        else
          let protP := spriv ++ ["protInfo.xml"]
          let staged : (Except Err Unit) × FS :=
            if fs.pathExists protP then (.ok (), fs)
            else
              match dGet? input_data "protInfo_content" with
              | none => (.error (.pyError "KeyError"), fs)
              | some (.str c) => (.ok (), fs.writeFile protP c)
              | some _ => (.error (.pyError "TypeError"), fs)
          match staged with
          | (.error e, fs1) => (.error e, fs1)
          | (.ok _, fs1) => gpk_generate_publish cfg vmn vmnc election_id session_id fs1
      | _, _ => (.error (.pyError "TypeError"), fs)

/-- The `authorities` list of a submission. -/
def authoritiesOf (data : Dict) : List Val := Val.asList (dGetD data "authorities" Val.null)

/-- The `ssl_cert` values of the authority entries. -/
def certsOf (data : Dict) : List Val :=
  (authoritiesOf data).map (fun a => dGetD (Val.asDict a) "ssl_cert" Val.null)

/-- The `orchestra_url` values of the authority entries. -/
def urlsOf (data : Dict) : List Val :=
  (authoritiesOf data).map (fun a => dGetD (Val.asDict a) "orchestra_url" Val.null)

/-- The `name` values of the authority entries. -/
def namesOf (data : Dict) : List Val :=
  (authoritiesOf data).map (fun a => dGetD (Val.asDict a) "name" Val.null)

/-- The question payload against which the count check runs: first-time it is
the raw payload value, on re-validation the deserialized one. -/
def effQuestions (jl : String → Option Val) (data : Dict) (first_time : Bool) : Val :=
  if first_time then dGetD data "questions_data" Val.null
  else (loadsVal jl (dGetD data "questions_data" Val.null)).getD Val.null

/-- The question-count condition: a list of between 1 and the configured
maximum entries. -/
def questionCountBad (jl : String → Option Val) (cfg : Config) (data : Dict)
    (first_time : Bool) : Bool :=
  !(effQuestions jl data first_time).isList ||
    (Val.asList (effQuestions jl data first_time)).length < 1 ||
    (Val.asList (effQuestions jl data first_time)).length > cfg.max_num_questions

/-- The first per-authority failure, authorities in list order, fields in the
order name, orchestra_url, ssl_cert: a typed reason for a missing or
non-string field of a dict entry, an uncaught `TypeError` where the loop body
crashes on a degenerate entry. -/
def authFieldsFirstBad : List Val → Option Err
  | [] => none
  | a :: rest =>
    match authEntryCheck a with
    | some e => some e
    | none => authFieldsFirstBad rest

/-- Validation rule 1: the always-required fields with their types. -/
def rule1_ok (data : Dict) : Bool :=
  !fieldBad data "election_id" Val.isStr && !fieldBad data "title" Val.isStr &&
  !fieldBad data "url" Val.isStr && !fieldBad data "description" Val.isStr &&
  !fieldBad data "is_recurring" Val.isBool && !fieldBad data "authorities" Val.isList

/-- Validation rule 2 as implemented: on a first-time submission
`callback_url`, `extra` and an already-parsed `questions_data` list are
required; on re-validation the raw `questions_data` must deserialize. -/
def rule2_ok (jl : String → Option Val) (data : Dict) (first_time : Bool) : Bool :=
  if first_time then
    !fieldBad data "callback_url" Val.isStr && !fieldBad data "extra" Val.isList &&
    !fieldBad data "questions_data" Val.isList
  else (loadsVal jl (dGetD data "questions_data" Val.null)).isSome

/-- Validation rule 3 as implemented: both voting-date keys present, each
value null or a datetime. -/
def rule3_ok (data : Dict) : Bool :=
  !votingDateBad data "voting_start_date" && !votingDateBad data "voting_end_date"

/-- Validation rule 4: the identifier pattern. -/
def rule4_ok (data : Dict) : Bool :=
  reMatchIdFull (Val.asStr (dGetD data "election_id" Val.null))

/-- Validation rule 5: non-empty authority list and supported question count. -/
def rule5_ok (jl : String → Option Val) (cfg : Config) (data : Dict)
    (first_time : Bool) : Bool :=
  !((authoritiesOf data).length == 0) && !questionCountBad jl cfg data first_time

/-- Validation rule 6: on a first-time submission the identifier must not
already exist in the store. -/
def rule6_ok (db : DB) (data : Dict) (first_time : Bool) : Bool :=
  !(first_time && db.elections.any (fun e => e.id == Val.asStr (dGetD data "election_id" Val.null)))

/-- Validation rule 7: every authority entry has name, endpoint and
certificate of string type. -/
def rule7_ok (data : Dict) : Bool :=
  (authFieldsFirstBad (authoritiesOf data)).isNone

/-- Validation rule 8: no two authorities share a certificate and no two share
an endpoint. -/
def rule8_ok (data : Dict) : Bool :=
  decide (certsOf data).Nodup && decide (urlsOf data).Nodup

/-- The first violated validation rule and its failure, in the order the code
checks them: on re-validation the question-payload deserialization runs before
everything else, then rules 1 to 8 of §4.1 with rule 2 as implemented
(first-time payload must already be a parsed list).  Every failure is a typed
`TaskError` reason except in rule 7, where a degenerate authority entry
crashes the loop with an uncaught `TypeError`. -/
def amendedFirstViolation (jl : String → Option Val) (cfg : Config) (db : DB)
    (data : Dict) (first_time : Bool) : Option Err :=
  if !first_time && (loadsVal jl (dGetD data "questions_data" Val.null)).isNone then
    some (.taskError "questions_data is not in json")
  else if fieldBad data "election_id" Val.isStr then
    some (.taskError "invalid election_id parameter")
  else if fieldBad data "title" Val.isStr then some (.taskError "invalid title parameter")
  else if fieldBad data "url" Val.isStr then some (.taskError "invalid url parameter")
  else if fieldBad data "description" Val.isStr then
    some (.taskError "invalid description parameter")
  else if fieldBad data "is_recurring" Val.isBool then
    some (.taskError "invalid is_recurring parameter")
  else if fieldBad data "authorities" Val.isList then
    some (.taskError "invalid authorities parameter")
  else if first_time && fieldBad data "callback_url" Val.isStr then
    some (.taskError "invalid callback_url parameter")
  else if first_time && fieldBad data "extra" Val.isList then
    some (.taskError "invalid extra parameter")
  else if first_time && fieldBad data "questions_data" Val.isList then
    some (.taskError "invalid questions_data parameter")
  else if votingDateBad data "voting_start_date" then
    some (.taskError "invalid voting_start_date parameter")
  else if votingDateBad data "voting_end_date" then
    some (.taskError "invalid voting_send_date parameter")
  else if !reMatchIdFull (Val.asStr (dGetD data "election_id" Val.null)) then
    some (.taskError "invalid characters in election_id")
  else if (authoritiesOf data).length == 0 then some (.taskError "no authorities")
  else if questionCountBad jl cfg data first_time then
    some (.taskError "Unsupported number of questions in the election")
  else if first_time &&
      db.elections.any (fun e => e.id == Val.asStr (dGetD data "election_id" Val.null)) then
    some (.taskError ("an election with id " ++ Val.asStr (dGetD data "election_id" Val.null) ++
      " already exists"))
  else
    match authFieldsFirstBad (authoritiesOf data) with
    | some e => some e
    | none =>
      if !(decide (certsOf data).Nodup && decide (urlsOf data).Nodup) then
        some (.taskError "invalid authorities parameters")
      else none

/-- Modelled from the spec: check 7 exactly as §4.1 words it — per-authority
name, endpoint and certificate string checks reported as typed reasons, an
entry that is not a dict simply having no fields.  Used only inside
`claimedFirstViolation`. -/
def claimedAuthFirstBad : List Val → Option String
  | [] => none
  | a :: rest =>
    if fieldBad (Val.asDict a) "name" Val.isStr then some "invalid name parameter"
    else if fieldBad (Val.asDict a) "orchestra_url" Val.isStr then
      some "invalid orchestra_url parameter"
    else if fieldBad (Val.asDict a) "ssl_cert" Val.isStr then
      some "invalid ssl_cert parameter"
    else claimedAuthFirstBad rest

/-- Modelled from the spec: the validator behaviour exactly as §4.1 words it,
with its eight checks in its stated order — rule 2 demanding, on a first-time
submission, a raw serialized question payload that deserializes (and on
re-validation an already-parsed list), rule 3 treating the voting-window
keys as optional, and every failure a typed reason.  Used only to compare the
claimed behaviour against the implementation. -/
def claimedFirstViolation (jl : String → Option Val) (cfg : Config) (db : DB)
    (data : Dict) (first_time : Bool) : Option String :=
  if fieldBad data "election_id" Val.isStr then some "invalid election_id parameter"
  else if fieldBad data "title" Val.isStr then some "invalid title parameter"
  else if fieldBad data "url" Val.isStr then some "invalid url parameter"
  else if fieldBad data "description" Val.isStr then some "invalid description parameter"
  else if fieldBad data "is_recurring" Val.isBool then some "invalid is_recurring parameter"
  else if fieldBad data "authorities" Val.isList then some "invalid authorities parameter"
  else if first_time && fieldBad data "callback_url" Val.isStr then
    some "invalid callback_url parameter"
  else if first_time && fieldBad data "extra" Val.isList then some "invalid extra parameter"
  else if first_time &&
      (loadsVal jl (dGetD data "questions_data" Val.null)).isNone then
    some "questions_data is not in json"
  else if !first_time && fieldBad data "questions_data" Val.isList then
    some "invalid questions_data parameter"
  else if dMem data "voting_start_date" && !(dGetD data "voting_start_date" Val.null).isNull &&
      !(dGetD data "voting_start_date" Val.null).isDate then
    some "invalid voting_start_date parameter"
  else if dMem data "voting_end_date" && !(dGetD data "voting_end_date" Val.null).isNull &&
      !(dGetD data "voting_end_date" Val.null).isDate then
    some "invalid voting_send_date parameter"
  else if !reMatchIdFull (Val.asStr (dGetD data "election_id" Val.null)) then
    some "invalid characters in election_id"
  else if (authoritiesOf data).length == 0 then some "no authorities"
  else if questionCountBad jl cfg data (!first_time) then
    some "Unsupported number of questions in the election"
  else if first_time &&
      db.elections.any (fun e => e.id == Val.asStr (dGetD data "election_id" Val.null)) then
    some ("an election with id " ++ Val.asStr (dGetD data "election_id" Val.null) ++
      " already exists")
  else
    match claimedAuthFirstBad (authoritiesOf data) with
    | some r => some r
    | none =>
      if !(decide (certsOf data).Nodup && decide (urlsOf data).Nodup) then
        some "invalid authorities parameters"
      else none




/-- The `Session` rows the bootstrap loop creates from position `i` on. -/
def sessionRowsFrom (eid : String) : List Val → Nat → List Session
  | [], _ => []
  | s :: rest, i =>
    { id := sessId s, election_id := eid, status := "default",
      public_key := "", question_number := i } :: sessionRowsFrom eid rest (i + 1)

/-- A concrete configuration for evaluating the jobs on sample inputs:
this node is `auth1`, auto-accept on. -/
def cfg0 : Config :=
  { private_data_path := ["priv"], public_data_path := ["pub"],
    root_url := "http://a1", ssl_cert_string := "CERT1",
    autoaccept_requests := true, max_num_questions := 10,
    server_url := "http://srv", hint_server_url := "hint://srv" }

/-- A concrete `json` parser knowing the sample payloads. -/
def jl0 : String → Option Val
  | "[\"q1\"]" => some (Val.list [Val.str "q1"])
  | _ => none

/-- An empty store. -/
def db0 : DB := { elections := [], authorities := [], sessions := [] }

/-- An empty filesystem and store. -/
def st0 : OState := { db := db0, fs := { dirs := [], files := [] } }

def auth1 : Val :=
  Val.dict [("name", Val.str "auth1"), ("orchestra_url", Val.str "http://a1"),
            ("ssl_cert", Val.str "CERT1")]

def auth2 : Val :=
  Val.dict [("name", Val.str "auth2"), ("orchestra_url", Val.str "http://a2"),
            ("ssl_cert", Val.str "CERT2")]

def sess1 : Val := Val.dict [("id", Val.str "s1"), ("stub", Val.str "STUB1")]

/-- A valid ceremony-message payload (re-validation shape: serialized
question payload), one session. -/
def goodInput : Dict :=
  [("election_id", Val.str "myel"), ("title", Val.str "T"), ("url", Val.str "U"),
   ("description", Val.str "D"), ("is_recurring", Val.boolean false),
   ("authorities", Val.list [auth1, auth2]),
   ("questions_data", Val.str "[\"q1\"]"),
   ("voting_start_date", Val.date 10), ("voting_end_date", Val.date 20),
   ("num_parties", Val.int 2), ("threshold_parties", Val.int 2),
   ("sessions", Val.list [sess1])]

/-- As `goodInput` but with the voting window reversed: start after end. -/
def reversedDatesInput : Dict :=
  [("election_id", Val.str "myel"), ("title", Val.str "T"), ("url", Val.str "U"),
   ("description", Val.str "D"), ("is_recurring", Val.boolean false),
   ("authorities", Val.list [auth1, auth2]),
   ("questions_data", Val.str "[\"q1\"]"),
   ("voting_start_date", Val.date 20), ("voting_end_date", Val.date 10),
   ("num_parties", Val.int 2), ("threshold_parties", Val.int 2),
   ("sessions", Val.list [sess1])]

/-- A valid first-time submission whose question payload is a valid serialized
list (as §4.1's rule 2 literally asks) rather than a parsed one. -/
def firstTimeSubmission : Dict :=
  [("election_id", Val.str "myel"), ("title", Val.str "T"), ("url", Val.str "U"),
   ("description", Val.str "D"), ("is_recurring", Val.boolean false),
   ("authorities", Val.list [auth1, auth2]),
   ("callback_url", Val.str "http://cb"), ("extra", Val.list []),
   ("questions_data", Val.str "[\"q1\"]"),
   ("voting_start_date", Val.date 10), ("voting_end_date", Val.date 20)]

/-- As `goodInput` but with an unparsable question payload. -/
def badJsonInput : Dict :=
  [("election_id", Val.str "myel"), ("title", Val.str "T"), ("url", Val.str "U"),
   ("description", Val.str "D"), ("is_recurring", Val.boolean false),
   ("authorities", Val.list [auth1, auth2]),
   ("questions_data", Val.str "notjson"),
   ("voting_start_date", Val.date 10), ("voting_end_date", Val.date 20)]

def authDup1 : Val :=
  Val.dict [("name", Val.str "dup"), ("orchestra_url", Val.str "http://a1"),
            ("ssl_cert", Val.str "CERT1")]

def authDup2 : Val :=
  Val.dict [("name", Val.str "dup"), ("orchestra_url", Val.str "http://a2"),
            ("ssl_cert", Val.str "CERT2")]

/-- As `goodInput` but the two authorities share a name (certificates and
endpoints still pairwise distinct). -/
def dupNameInput : Dict :=
  [("election_id", Val.str "myel"), ("title", Val.str "T"), ("url", Val.str "U"),
   ("description", Val.str "D"), ("is_recurring", Val.boolean false),
   ("authorities", Val.list [authDup1, authDup2]),
   ("questions_data", Val.str "[\"q1\"]"),
   ("voting_start_date", Val.date 10), ("voting_end_date", Val.date 20)]

/-- As `goodInput` but with no voting_start_date key at all. -/
def startMissingInput : Dict :=
  [("election_id", Val.str "myel"), ("title", Val.str "T"), ("url", Val.str "U"),
   ("description", Val.str "D"), ("is_recurring", Val.boolean false),
   ("authorities", Val.list [auth1, auth2]),
   ("questions_data", Val.str "[\"q1\"]"),
   ("voting_end_date", Val.date 20)]

/-- As `goodInput` but with both voting-date keys present and null. -/
def nullDatesInput : Dict :=
  [("election_id", Val.str "myel"), ("title", Val.str "T"), ("url", Val.str "U"),
   ("description", Val.str "D"), ("is_recurring", Val.boolean false),
   ("authorities", Val.list [auth1, auth2]),
   ("questions_data", Val.str "[\"q1\"]"),
   ("voting_start_date", Val.null), ("voting_end_date", Val.null)]

/-- As `goodInput` but with a single non-dict authority entry (`true`, valid
JSON): the per-authority loop of lines 97-101 evaluates `'name' not in True`
and crashes with an uncaught `TypeError`. -/
def nonDictAuthInput : Dict :=
  [("election_id", Val.str "myel"), ("title", Val.str "T"), ("url", Val.str "U"),
   ("description", Val.str "D"), ("is_recurring", Val.boolean false),
   ("authorities", Val.list [Val.boolean true]),
   ("questions_data", Val.str "[\"q1\"]"),
   ("voting_start_date", Val.date 10), ("voting_end_date", Val.date 20)]

def violationResult : Option Err → Except Err Unit
  | none => .ok ()
  | some e => .error e

theorem dedup_len_eq_nodup (l : List Val) :
    ((l.dedup.length == l.length) : Bool) = decide l.Nodup := by
  by_cases h : l.Nodup
  · simp [List.dedup_eq_self.mpr h, h]
  · have hne : l.dedup.length ≠ l.length := fun hlen =>
      h (((List.dedup_sublist l).eq_of_length hlen) ▸ List.nodup_dedup l)
    simp [h, hne]

theorem unique_by_keys_eq_nodup (l : List Dict) :
    unique_by_keys l ["ssl_cert", "orchestra_url"] =
      ((decide (l.map (fun i => dGetD i "ssl_cert" Val.null)).Nodup) &&
       (decide (l.map (fun i => dGetD i "orchestra_url" Val.null)).Nodup)) := by
  have h1 := dedup_len_eq_nodup (l.map (fun i => dGetD i "ssl_cert" Val.null))
  have h2 := dedup_len_eq_nodup (l.map (fun i => dGetD i "orchestra_url" Val.null))
  rw [List.length_map] at h1 h2
  simp [unique_by_keys, h1, h2]

theorem checkReqs_base (data : Dict) :
    checkReqs data baseReqs =
      (if fieldBad data "election_id" Val.isStr then some "invalid election_id parameter"
       else if fieldBad data "title" Val.isStr then some "invalid title parameter"
       else if fieldBad data "url" Val.isStr then some "invalid url parameter"
       else if fieldBad data "description" Val.isStr then some "invalid description parameter"
       else if fieldBad data "is_recurring" Val.isBool then some "invalid is_recurring parameter"
       else if fieldBad data "authorities" Val.isList then some "invalid authorities parameter"
       else none) := by
  simp only [checkReqs, baseReqs]
  split_ifs <;> rfl

theorem checkAuthEntries_eq (l : List Val) : checkAuthEntries l = authFieldsFirstBad l := by
  induction l with
  | nil => rfl
  | cons a rest ih =>
    show (a :: rest).findSome? authEntryCheck = _
    rw [List.findSome?_cons, authFieldsFirstBad]
    cases authEntryCheck a <;> simp_all [checkAuthEntries]

theorem checkReqs_base_extra (data : Dict) :
    checkReqs data (baseReqs ++ extraReqs) =
      (if fieldBad data "election_id" Val.isStr then some "invalid election_id parameter"
       else if fieldBad data "title" Val.isStr then some "invalid title parameter"
       else if fieldBad data "url" Val.isStr then some "invalid url parameter"
       else if fieldBad data "description" Val.isStr then some "invalid description parameter"
       else if fieldBad data "is_recurring" Val.isBool then some "invalid is_recurring parameter"
       else if fieldBad data "authorities" Val.isList then some "invalid authorities parameter"
       else if fieldBad data "callback_url" Val.isStr then some "invalid callback_url parameter"
       else if fieldBad data "extra" Val.isList then some "invalid extra parameter"
       else if fieldBad data "questions_data" Val.isList then some "invalid questions_data parameter"
       else none) := by
  simp only [checkReqs, baseReqs, extraReqs, List.cons_append, List.nil_append]
  split_ifs <;> rfl

theorem cce_spec (jl : String → Option Val) (cfg : Config) (db : DB) (data : Dict) (ft : Bool) :
    check_election_data jl cfg db data ft =
      violationResult (amendedFirstViolation jl cfg db data ft) := by
  cases ft with
  | false =>
    unfold check_election_data amendedFirstViolation
    cases h : loadsVal jl (dGetD data "questions_data" Val.null) with
    | none => simp [h, violationResult]
    | some v =>
      simp only [h, Option.isNone_some, Bool.not_false, Bool.true_and, Bool.false_and,
        Bool.false_eq_true, if_false, Option.getD_some]
      rw [List.append_nil]
      rw [checkReqs_base, checkAuthEntries_eq, unique_by_keys_eq_nodup]
      simp only [questionCountBad, effQuestions, authoritiesOf, certsOf, urlsOf, h,
        Option.getD_some, Bool.false_eq_true, if_false, List.map_map, Function.comp_def,
        violationResult]
      by_cases h1 : fieldBad data "election_id" Val.isStr = true
      · simp [h1, violationResult]
      by_cases h2 : fieldBad data "title" Val.isStr = true
      · simp [h1, h2, violationResult]
      by_cases h3 : fieldBad data "url" Val.isStr = true
      · simp [h1, h2, h3, violationResult]
      by_cases h4 : fieldBad data "description" Val.isStr = true
      · simp [h1, h2, h3, h4, violationResult]
      by_cases h5 : fieldBad data "is_recurring" Val.isBool = true
      · simp [h1, h2, h3, h4, h5, violationResult]
      by_cases h6 : fieldBad data "authorities" Val.isList = true
      · simp [h1, h2, h3, h4, h5, h6, violationResult]
      by_cases h7 : votingDateBad data "voting_start_date" = true
      · simp [h1, h2, h3, h4, h5, h6, h7, violationResult]
      by_cases h8 : votingDateBad data "voting_end_date" = true
      · simp [h1, h2, h3, h4, h5, h6, h7, h8, violationResult]
      by_cases h9 : (!reMatchIdFull (Val.asStr (dGetD data "election_id" Val.null))) = true
      · simp [h1, h2, h3, h4, h5, h6, h7, h8, h9, violationResult]
      by_cases h10 : (Val.asList (dGetD data "authorities" Val.null)).length = 0
      · simp [h1, h2, h3, h4, h5, h6, h7, h8, h9, h10, violationResult]
      by_cases h11 : (v.isList = false ∨ Val.asList v = []) ∨ cfg.max_num_questions < (Val.asList v).length
      · simp [h1, h2, h3, h4, h5, h6, h7, h8, h9, h10, h11, violationResult]
      cases hafb : authFieldsFirstBad (Val.asList (dGetD data "authorities" Val.null)) with
      | some r => simp [h1, h2, h3, h4, h5, h6, h7, h8, h9, h10, h11, hafb, violationResult]
      | none =>
        by_cases h12 : ¬(List.map (fun x => dGetD (Val.asDict x) "ssl_cert" Val.null) (Val.asList (dGetD data "authorities" Val.null))).Nodup ∨ ¬(List.map (fun x => dGetD (Val.asDict x) "orchestra_url" Val.null) (Val.asList (dGetD data "authorities" Val.null))).Nodup
        · simp [h1, h2, h3, h4, h5, h6, h7, h8, h9, h10, h11, hafb, h12, violationResult]
        · simp [h1, h2, h3, h4, h5, h6, h7, h8, h9, h10, h11, hafb, h12, violationResult]
  | true =>
    unfold check_election_data amendedFirstViolation
    simp only [Bool.not_true, Bool.false_and, Bool.true_and, Bool.false_eq_true, if_false,
      if_true, Bool.true_eq_false]
    rw [checkReqs_base_extra, checkAuthEntries_eq, unique_by_keys_eq_nodup]
    simp only [questionCountBad, effQuestions, authoritiesOf, certsOf, urlsOf, if_true,
      List.map_map, Function.comp_def, violationResult]
    by_cases h1 : fieldBad data "election_id" Val.isStr = true
    · simp [h1, violationResult]
    by_cases h2 : fieldBad data "title" Val.isStr = true
    · simp [h1, h2, violationResult]
    by_cases h3 : fieldBad data "url" Val.isStr = true
    · simp [h1, h2, h3, violationResult]
    by_cases h4 : fieldBad data "description" Val.isStr = true
    · simp [h1, h2, h3, h4, violationResult]
    by_cases h5 : fieldBad data "is_recurring" Val.isBool = true
    · simp [h1, h2, h3, h4, h5, violationResult]
    by_cases h6 : fieldBad data "authorities" Val.isList = true
    · simp [h1, h2, h3, h4, h5, h6, violationResult]
    by_cases h6b : fieldBad data "callback_url" Val.isStr = true
    · simp [h1, h2, h3, h4, h5, h6, h6b, violationResult]
    by_cases h6c : fieldBad data "extra" Val.isList = true
    · simp [h1, h2, h3, h4, h5, h6, h6b, h6c, violationResult]
    by_cases h6d : fieldBad data "questions_data" Val.isList = true
    · simp [h1, h2, h3, h4, h5, h6, h6b, h6c, h6d, violationResult]
    by_cases h7 : votingDateBad data "voting_start_date" = true
    · simp [h1, h2, h3, h4, h5, h6, h6b, h6c, h6d, h7, violationResult]
    by_cases h8 : votingDateBad data "voting_end_date" = true
    · simp [h1, h2, h3, h4, h5, h6, h6b, h6c, h6d, h7, h8, violationResult]
    by_cases h9 : (!reMatchIdFull (Val.asStr (dGetD data "election_id" Val.null))) = true
    · simp [h1, h2, h3, h4, h5, h6, h6b, h6c, h6d, h7, h8, h9, violationResult]
    by_cases h10 : (Val.asList (dGetD data "authorities" Val.null)).length = 0
    · simp [h1, h2, h3, h4, h5, h6, h6b, h6c, h6d, h7, h8, h9, h10, violationResult]
    by_cases h11 : ((dGetD data "questions_data" Val.null).isList = false ∨ Val.asList (dGetD data "questions_data" Val.null) = []) ∨ cfg.max_num_questions < (Val.asList (dGetD data "questions_data" Val.null)).length
    · simp [h1, h2, h3, h4, h5, h6, h6b, h6c, h6d, h7, h8, h9, h10, h11, violationResult]
    by_cases h11b : (db.elections.any (fun e => e.id == Val.asStr (dGetD data "election_id" Val.null))) = true
    · simp [h1, h2, h3, h4, h5, h6, h6b, h6c, h6d, h7, h8, h9, h10, h11, h11b, violationResult]
    cases hafb : authFieldsFirstBad (Val.asList (dGetD data "authorities" Val.null)) with
    | some r => simp [h1, h2, h3, h4, h5, h6, h6b, h6c, h6d, h7, h8, h9, h10, h11, h11b, hafb, violationResult]
    | none =>
      by_cases h12 : ¬(List.map (fun x => dGetD (Val.asDict x) "ssl_cert" Val.null) (Val.asList (dGetD data "authorities" Val.null))).Nodup ∨ ¬(List.map (fun x => dGetD (Val.asDict x) "orchestra_url" Val.null) (Val.asList (dGetD data "authorities" Val.null))).Nodup
      · simp [h1, h2, h3, h4, h5, h6, h6b, h6c, h6d, h7, h8, h9, h10, h11, h11b, hafb, h12, violationResult]
      · simp [h1, h2, h3, h4, h5, h6, h6b, h6c, h6d, h7, h8, h9, h10, h11, h11b, hafb, h12, violationResult]

theorem amendedFV_none_iff (jl : String → Option Val) (cfg : Config) (db : DB)
    (data : Dict) (ft : Bool) :
    amendedFirstViolation jl cfg db data ft = none ↔
      (rule1_ok data && rule2_ok jl data ft && rule3_ok data && rule4_ok data &&
       rule5_ok jl cfg data ft && rule6_ok db data ft && rule7_ok data &&
       rule8_ok data) = true := by
  unfold amendedFirstViolation rule1_ok rule2_ok rule3_ok rule4_ok rule5_ok
    rule6_ok rule7_ok rule8_ok
  cases ft with
  | false =>
    simp only [Bool.not_false, Bool.true_and, Bool.false_and, Bool.false_eq_true,
      if_false, Bool.if_false_right, Bool.if_true_left]
    by_cases h0 : (loadsVal jl (dGetD data "questions_data" Val.null)).isNone = true
    · simp [h0]
    by_cases h1 : fieldBad data "election_id" Val.isStr = true
    · simp [h0, h1]
    by_cases h2 : fieldBad data "title" Val.isStr = true
    · simp [h0, h1, h2]
    by_cases h3 : fieldBad data "url" Val.isStr = true
    · simp [h0, h1, h2, h3]
    by_cases h4 : fieldBad data "description" Val.isStr = true
    · simp [h0, h1, h2, h3, h4]
    by_cases h5 : fieldBad data "is_recurring" Val.isBool = true
    · simp [h0, h1, h2, h3, h4, h5]
    by_cases h6 : fieldBad data "authorities" Val.isList = true
    · simp [h0, h1, h2, h3, h4, h5, h6]
    by_cases h7 : votingDateBad data "voting_start_date" = true
    · simp [h0, h1, h2, h3, h4, h5, h6, h7]
    by_cases h8 : votingDateBad data "voting_end_date" = true
    · simp [h0, h1, h2, h3, h4, h5, h6, h7, h8]
    by_cases h9 : reMatchIdFull (Val.asStr (dGetD data "election_id" Val.null)) = false
    · simp [h0, h1, h2, h3, h4, h5, h6, h7, h8, h9]
    by_cases h10 : ((authoritiesOf data).length == 0) = true
    · simp [h0, h1, h2, h3, h4, h5, h6, h7, h8, h9, h10]
    by_cases h11 : questionCountBad jl cfg data false = true
    · simp [h0, h1, h2, h3, h4, h5, h6, h7, h8, h9, h10, h11]
    cases hafb : authFieldsFirstBad (authoritiesOf data) with
    | some r => simp [h0, h1, h2, h3, h4, h5, h6, h7, h8, h9, h10, h11, hafb]
    | none =>
      by_cases h12 : (!(decide (certsOf data).Nodup && decide (urlsOf data).Nodup)) = true
      · simp [h0, h1, h2, h3, h4, h5, h6, h7, h8, h9, h10, h11, hafb, h12] <;> (simp at h12 ⊢ <;> try simp_all [Option.ne_none_iff_isSome]) <;> tauto
      · simp [h0, h1, h2, h3, h4, h5, h6, h7, h8, h9, h10, h11, hafb, h12] <;> (simp at h12 ⊢ <;> try simp_all [Option.ne_none_iff_isSome]) <;> tauto
  | true =>
    simp only [Bool.not_true, Bool.false_and, Bool.true_and, Bool.false_eq_true,
      if_false, if_true]
    by_cases h1 : fieldBad data "election_id" Val.isStr = true
    · simp [h1]
    by_cases h2 : fieldBad data "title" Val.isStr = true
    · simp [h1, h2]
    by_cases h3 : fieldBad data "url" Val.isStr = true
    · simp [h1, h2, h3]
    by_cases h4 : fieldBad data "description" Val.isStr = true
    · simp [h1, h2, h3, h4]
    by_cases h5 : fieldBad data "is_recurring" Val.isBool = true
    · simp [h1, h2, h3, h4, h5]
    by_cases h6 : fieldBad data "authorities" Val.isList = true
    · simp [h1, h2, h3, h4, h5, h6]
    by_cases h6b : fieldBad data "callback_url" Val.isStr = true
    · simp [h1, h2, h3, h4, h5, h6, h6b]
    by_cases h6c : fieldBad data "extra" Val.isList = true
    · simp [h1, h2, h3, h4, h5, h6, h6b, h6c]
    by_cases h6d : fieldBad data "questions_data" Val.isList = true
    · simp [h1, h2, h3, h4, h5, h6, h6b, h6c, h6d]
    by_cases h7 : votingDateBad data "voting_start_date" = true
    · simp [h1, h2, h3, h4, h5, h6, h6b, h6c, h6d, h7]
    by_cases h8 : votingDateBad data "voting_end_date" = true
    · simp [h1, h2, h3, h4, h5, h6, h6b, h6c, h6d, h7, h8]
    by_cases h9 : reMatchIdFull (Val.asStr (dGetD data "election_id" Val.null)) = false
    · simp [h1, h2, h3, h4, h5, h6, h6b, h6c, h6d, h7, h8, h9]
    by_cases h10 : ((authoritiesOf data).length == 0) = true
    · simp [h1, h2, h3, h4, h5, h6, h6b, h6c, h6d, h7, h8, h9, h10]
    by_cases h11 : questionCountBad jl cfg data true = true
    · simp [h1, h2, h3, h4, h5, h6, h6b, h6c, h6d, h7, h8, h9, h10, h11]
    by_cases h11b : (db.elections.any (fun e => e.id == Val.asStr (dGetD data "election_id" Val.null))) = true
    · simp [h1, h2, h3, h4, h5, h6, h6b, h6c, h6d, h7, h8, h9, h10, h11, h11b]
    cases hafb : authFieldsFirstBad (authoritiesOf data) with
    | some r => simp [h1, h2, h3, h4, h5, h6, h6b, h6c, h6d, h7, h8, h9, h10, h11, h11b, hafb]
    | none =>
      by_cases h12 : (!(decide (certsOf data).Nodup && decide (urlsOf data).Nodup)) = true
      · simp [h1, h2, h3, h4, h5, h6, h6b, h6c, h6d, h7, h8, h9, h10, h11, h11b, hafb, h12] <;> (simp at h12 ⊢ <;> try simp_all [Option.ne_none_iff_isSome]) <;> tauto
      · simp [h1, h2, h3, h4, h5, h6, h6b, h6c, h6d, h7, h8, h9, h10, h11, h11b, hafb, h12] <;> (simp at h12 ⊢ <;> try simp_all [Option.ne_none_iff_isSome]) <;> tauto


theorem violationResult_ok_iff (o : Option Err) :
    violationResult o = .ok () ↔ o = none := by
  cases o <;> simp [violationResult]

theorem violationResult_error_iff (o : Option Err) (e : Err) :
    violationResult o = .error e ↔ o = some e := by
  cases o <;> simp [violationResult]

theorem alreadyReason_ne_start (x : String) :
    ("an election with id " ++ x ++ " already exists") ≠
      "invalid voting_start_date parameter" := by
  intro h
  have h2 := congrArg String.data h
  simp [String.data_append] at h2

theorem alreadyReason_ne_send (x : String) :
    ("an election with id " ++ x ++ " already exists") ≠
      "invalid voting_send_date parameter" := by
  intro h
  have h2 := congrArg String.data h
  simp [String.data_append] at h2

theorem authReqCheck_reasons (req : Req) (a : Val) (e : Err)
    (h : authReqCheck req a = some e) :
    e = .taskError ("invalid " ++ req.name ++ " parameter") ∨ e = .pyError "TypeError" := by
  unfold authReqCheck at h
  cases hp : pyIn req.name a with
  | none => rw [hp] at h; exact Or.inr (Option.some.inj h).symm
  | some b =>
    rw [hp] at h
    cases b with
    | false => exact Or.inl (Option.some.inj h).symm
    | true =>
      cases a with
      | dict d =>
        dsimp only [] at h
        by_cases hc : req.check (dGetD d req.name Val.null) = true
        · rw [if_pos hc] at h; simp at h
        · rw [if_neg hc] at h; exact Or.inl (Option.some.inj h).symm
      | str s => exact Or.inr (Option.some.inj h).symm
      | list l => exact Or.inr (Option.some.inj h).symm
      | boolean b2 => exact Or.inr (Option.some.inj h).symm
      | int n => exact Or.inr (Option.some.inj h).symm
      | date dt => exact Or.inr (Option.some.inj h).symm
      | null => exact Or.inr (Option.some.inj h).symm

theorem authEntryCheck_reasons (a : Val) (e : Err) (h : authEntryCheck a = some e) :
    e = .taskError "invalid name parameter" ∨ e = .taskError "invalid orchestra_url parameter" ∨
    e = .taskError "invalid ssl_cert parameter" ∨ e = .pyError "TypeError" := by
  unfold authEntryCheck authReqs at h
  rw [List.findSome?_cons] at h
  cases h1 : authReqCheck ⟨"name", Val.isStr⟩ a with
  | some e1 =>
    rw [h1] at h
    dsimp only [] at h
    rcases authReqCheck_reasons _ _ _ ((Option.some.inj h) ▸ h1) with hr | hr
    · exact Or.inl (by rw [hr]; decide)
    · exact Or.inr (Or.inr (Or.inr hr))
  | none =>
    rw [h1] at h
    dsimp only [] at h
    rw [List.findSome?_cons] at h
    cases h2 : authReqCheck ⟨"orchestra_url", Val.isStr⟩ a with
    | some e2 =>
      rw [h2] at h
      dsimp only [] at h
      rcases authReqCheck_reasons _ _ _ ((Option.some.inj h) ▸ h2) with hr | hr
      · exact Or.inr (Or.inl (by rw [hr]; decide))
      · exact Or.inr (Or.inr (Or.inr hr))
    | none =>
      rw [h2] at h
      dsimp only [] at h
      rw [List.findSome?_cons] at h
      cases h3 : authReqCheck ⟨"ssl_cert", Val.isStr⟩ a with
      | some e3 =>
        rw [h3] at h
        dsimp only [] at h
        rcases authReqCheck_reasons _ _ _ ((Option.some.inj h) ▸ h3) with hr | hr
        · exact Or.inr (Or.inr (Or.inl (by rw [hr]; decide)))
        · exact Or.inr (Or.inr (Or.inr hr))
      | none =>
        rw [h3] at h
        simp [List.findSome?] at h

theorem afb_reasons (l : List Val) (e : Err) (h : authFieldsFirstBad l = some e) :
    e = .taskError "invalid name parameter" ∨ e = .taskError "invalid orchestra_url parameter" ∨
    e = .taskError "invalid ssl_cert parameter" ∨ e = .pyError "TypeError" := by
  induction l with
  | nil => simp [authFieldsFirstBad] at h
  | cons a rest ih =>
    unfold authFieldsFirstBad at h
    cases hc : authEntryCheck a with
    | some e2 =>
      rw [hc] at h
      dsimp only [] at h
      exact (Option.some.inj h) ▸ authEntryCheck_reasons a e2 hc
    | none =>
      rw [hc] at h
      exact ih h

theorem amendedFV_parse_ne (jl : String → Option Val) (cfg : Config) (db : DB)
    (data : Dict) (v : Val)
    (hv : loadsVal jl (dGetD data "questions_data" Val.null) = some v) :
    amendedFirstViolation jl cfg db data false ≠
      some (.taskError "questions_data is not in json") := by
  unfold amendedFirstViolation
  simp only [hv, Option.isNone_some, Bool.and_false, Bool.false_eq_true, if_false,
    Bool.not_false, Bool.true_and, Bool.false_and]
  by_cases h1 : fieldBad data "election_id" Val.isStr = true
  · simp [h1]
  by_cases h2 : fieldBad data "title" Val.isStr = true
  · simp [h1, h2]
  by_cases h3 : fieldBad data "url" Val.isStr = true
  · simp [h1, h2, h3]
  by_cases h4 : fieldBad data "description" Val.isStr = true
  · simp [h1, h2, h3, h4]
  by_cases h5 : fieldBad data "is_recurring" Val.isBool = true
  · simp [h1, h2, h3, h4, h5]
  by_cases h6 : fieldBad data "authorities" Val.isList = true
  · simp [h1, h2, h3, h4, h5, h6]
  by_cases h7 : votingDateBad data "voting_start_date" = true
  · simp [h1, h2, h3, h4, h5, h6, h7]
  by_cases h8 : votingDateBad data "voting_end_date" = true
  · simp [h1, h2, h3, h4, h5, h6, h7, h8]
  by_cases h9 : reMatchIdFull (Val.asStr (dGetD data "election_id" Val.null)) = false
  · simp [h1, h2, h3, h4, h5, h6, h7, h8, h9]
  by_cases h10 : ((authoritiesOf data).length == 0) = true
  · simp [h1, h2, h3, h4, h5, h6, h7, h8, h9, h10]
  by_cases h11 : questionCountBad jl cfg data false = true
  · simp [h1, h2, h3, h4, h5, h6, h7, h8, h9, h10, h11]
  cases hafb : authFieldsFirstBad (authoritiesOf data) with
  | some r =>
    rcases afb_reasons _ _ hafb with hr | hr | hr | hr <;> subst hr <;>
      simp [h1, h2, h3, h4, h5, h6, h7, h8, h9, h10, h11, hafb]
  | none =>
    by_cases h12 : (!(decide (certsOf data).Nodup && decide (urlsOf data).Nodup)) = true
    · simp [h1, h2, h3, h4, h5, h6, h7, h8, h9, h10, h11, hafb, h12]
    · simp [h1, h2, h3, h4, h5, h6, h7, h8, h9, h10, h11, hafb, h12]

/-- C3: the validator succeeds exactly when all eight checks hold (with check 2
as implemented: a first-time submission requires an already-parsed question
list, re-validation deserializes the raw payload), and the failure is the
first violated rule in the implemented order, which runs the re-validation
deserialization check before everything else and then follows the §4.1 order —
a single typed reason everywhere except in check 7, where a non-dict authority
entry crashes the loop with an uncaught untyped `TypeError` instead of a
typed failure.  The function is pure, so no mutation occurs. -/
theorem c3_validator_first_violation (jl : String → Option Val) (cfg : Config)
    (db : DB) (data : Dict) (ft : Bool) :
    check_election_data jl cfg db data ft =
      violationResult (amendedFirstViolation jl cfg db data ft) ∧
    (check_election_data jl cfg db data ft = .ok () ↔
      (rule1_ok data && rule2_ok jl data ft && rule3_ok data && rule4_ok data &&
       rule5_ok jl cfg data ft && rule6_ok db data ft && rule7_ok data &&
       rule8_ok data) = true) := by
  refine ⟨cce_spec jl cfg db data ft, ?_⟩
  rw [cce_spec jl cfg db data ft, ← amendedFV_none_iff jl cfg db data ft]
  exact violationResult_ok_iff _

/-- C3 counterexample: a valid first-time submission whose question payload is
a serialized list passes all eight checks exactly as §4.1 words them (the
claimed validator accepts it), yet the implementation rejects it with
"invalid questions_data parameter" — so the claimed iff and ordering are
false as stated; and a submission whose authority list holds the non-dict
entry `true` makes the implementation crash with an untyped `TypeError`,
refuting the claim that every failure is exactly one typed failure. -/
theorem c3_validator_counterexample :
    (check_election_data jl0 cfg0 db0 firstTimeSubmission true =
       .error (.taskError "invalid questions_data parameter") ∧
     claimedFirstViolation jl0 cfg0 db0 firstTimeSubmission true = none) ∧
    check_election_data jl0 cfg0 db0 nonDictAuthInput false =
      .error (.pyError "TypeError") := by
  refine ⟨⟨by decide, by decide⟩, by decide⟩

/-- C7 counterexample: the two modes behave the reverse of the claim.  On a
first-time submission a valid serialized question payload is rejected with a
type failure (no deserialization happens), while on internal re-validation an
unparsable payload string fails with the parse error
"questions_data is not in json". -/
theorem c7_questions_modes_counterexample :
    check_election_data jl0 cfg0 db0 firstTimeSubmission true =
      .error (.taskError "invalid questions_data parameter") ∧
    check_election_data jl0 cfg0 db0 badJsonInput false =
      .error (.taskError "questions_data is not in json") := by
  constructor
  · decide
  · decide

/-- C7 amended: on a first-time public submission (`check_extra` true) the
question payload must already be a parsed list — the result never depends on
the json parser, and success forces a list value — whereas on internal
re-validation (`check_extra` false) the raw payload is deserialized: an
unparsable value fails with "questions_data is not in json" and a parsable
one never produces that reason. -/
theorem c7_questions_modes_amended (jl jl2 : String → Option Val) (cfg : Config)
    (db : DB) (data : Dict) :
    (check_election_data jl cfg db data true = check_election_data jl2 cfg db data true) ∧
    (check_election_data jl cfg db data true = .ok () →
      ∃ qs, dGet? data "questions_data" = some (Val.list qs)) ∧
    (loadsVal jl (dGetD data "questions_data" Val.null) = none →
      check_election_data jl cfg db data false =
        .error (.taskError "questions_data is not in json")) ∧
    (∀ v, loadsVal jl (dGetD data "questions_data" Val.null) = some v →
      check_election_data jl cfg db data false ≠
        .error (.taskError "questions_data is not in json")) := by
  refine ⟨rfl, ?_, ?_, ?_⟩
  · intro h
    have hnone := (violationResult_ok_iff _).mp ((cce_spec jl cfg db data true).symm.trans h)
    have hrules := (amendedFV_none_iff jl cfg db data true).mp hnone
    have h2 : rule2_ok jl data true = true := by
      simp only [Bool.and_eq_true] at hrules
      exact hrules.1.1.1.1.1.1.2
    simp only [rule2_ok, if_true, Bool.and_eq_true] at h2
    have hq := h2.2
    simp only [fieldBad] at hq
    simp at hq
    obtain ⟨hmem, hlist⟩ := hq
    simp only [dMem] at hmem
    simp [Option.isSome_iff_exists] at hmem
    obtain ⟨v, hv⟩ := hmem
    refine ⟨Val.asList v, ?_⟩
    rw [hv]
    simp only [dGetD, hv, Option.getD_some] at hlist
    cases v <;> simp_all [Val.isList, Val.asList]
  · intro h
    rw [cce_spec, violationResult_error_iff]
    unfold amendedFirstViolation
    rw [h]
    rfl
  · intro v hv
    rw [cce_spec, Ne, violationResult_error_iff]
    exact amendedFV_parse_ne jl cfg db data v hv

/-- C7 witness: the amended claim evaluated at concrete payloads. -/
theorem c7_questions_modes_witness :
    check_election_data jl0 cfg0 db0 badJsonInput false =
      .error (.taskError "questions_data is not in json") ∧
    check_election_data jl0 cfg0 db0 goodInput false ≠
      .error (.taskError "questions_data is not in json") :=
  ⟨(c7_questions_modes_amended jl0 jl0 cfg0 db0 badJsonInput).2.2.1 rfl,
   (c7_questions_modes_amended jl0 jl0 cfg0 db0 goodInput).2.2.2
     (Val.list [Val.str "q1"]) rfl⟩


theorem rule1_components (data : Dict) (h : rule1_ok data = true) :
    fieldBad data "election_id" Val.isStr = false ∧ fieldBad data "title" Val.isStr = false ∧
    fieldBad data "url" Val.isStr = false ∧ fieldBad data "description" Val.isStr = false ∧
    fieldBad data "is_recurring" Val.isBool = false ∧
    fieldBad data "authorities" Val.isList = false := by
  simp [rule1_ok] at h
  simp [h]


theorem rule3_components (data : Dict) (h : rule3_ok data = true) :
    votingDateBad data "voting_start_date" = false ∧
    votingDateBad data "voting_end_date" = false := by
  simp [rule3_ok] at h
  simp [h]

theorem rule7_none (data : Dict) (h : rule7_ok data = true) :
    authFieldsFirstBad (authoritiesOf data) = none := by
  simp [rule7_ok] at h
  exact h

/-- C8 amended: for every submission passing the earlier checks, the validator
rejects with "invalid authorities parameters" exactly when two authorities
share a certificate or two share an endpoint; name duplicates alone are not
rejected (a list unique in certificate and endpoint is accepted even with
repeated names). -/
theorem c8_uniqueness_amended (jl : String → Option Val) (cfg : Config) (db : DB)
    (data : Dict) (ft : Bool)
    (hpre : (rule1_ok data && rule2_ok jl data ft && rule3_ok data && rule4_ok data &&
             rule5_ok jl cfg data ft && rule6_ok db data ft && rule7_ok data) = true) :
    (check_election_data jl cfg db data ft =
        .error (.taskError "invalid authorities parameters") ↔
      ¬((certsOf data).Nodup ∧ (urlsOf data).Nodup)) ∧
    ((certsOf data).Nodup ∧ (urlsOf data).Nodup →
      check_election_data jl cfg db data ft = .ok ()) := by
  simp only [Bool.and_eq_true] at hpre
  obtain ⟨⟨⟨⟨⟨⟨hr1, hr2⟩, hr3⟩, hr4⟩, hr5⟩, hr6⟩, hr7⟩ := hpre
  obtain ⟨hf1, hf2, hf3, hf4, hf5, hf6⟩ := rule1_components data hr1
  obtain ⟨hd1, hd2⟩ := rule3_components data hr3
  have hafb := rule7_none data hr7
  simp only [rule4_ok] at hr4
  simp [rule5_ok] at hr5
  simp [rule6_ok] at hr6
  have hfv : amendedFirstViolation jl cfg db data ft =
      (if ((certsOf data).Nodup ∧ (urlsOf data).Nodup) then none
       else some (.taskError "invalid authorities parameters")) := by
    unfold amendedFirstViolation
    cases ft with
    | false =>
      simp only [rule2_ok] at hr2
      simp at hr2
      rw [Option.isSome_iff_exists] at hr2
      obtain ⟨v, hv⟩ := hr2
      simp [hf1, hf2, hf3, hf4, hf5, hf6, hd1, hd2, hr4, hr5, hr6, hafb, hv]
      split_ifs <;> first | rfl | tauto
    | true =>
      simp only [rule2_ok, if_true] at hr2
      simp at hr2 hr6
      simp [hf1, hf2, hf3, hf4, hf5, hf6, hd1, hd2, hr4, hr5, hr6, hafb, hr2]
      split_ifs <;> first | rfl | tauto
  rw [cce_spec, hfv]
  by_cases hnd : ((certsOf data).Nodup ∧ (urlsOf data).Nodup)
  · simp [hnd, violationResult]
  · simp [hnd, violationResult]


theorem amendedFV_start_reason (jl : String → Option Val) (cfg : Config) (db : DB)
    (data : Dict) (ft : Bool) :
    amendedFirstViolation jl cfg db data ft =
      some (.taskError "invalid voting_start_date parameter") →
    votingDateBad data "voting_start_date" = true := by
  unfold amendedFirstViolation
  by_cases h0 : (!ft && (loadsVal jl (dGetD data "questions_data" Val.null)).isNone) = true
  · simp [h0, alreadyReason_ne_start, alreadyReason_ne_send]
  by_cases h1 : fieldBad data "election_id" Val.isStr = true
  · simp [h0, h1, alreadyReason_ne_start, alreadyReason_ne_send]
  by_cases h2 : fieldBad data "title" Val.isStr = true
  · simp [h0, h1, h2, alreadyReason_ne_start, alreadyReason_ne_send]
  by_cases h3 : fieldBad data "url" Val.isStr = true
  · simp [h0, h1, h2, h3, alreadyReason_ne_start, alreadyReason_ne_send]
  by_cases h4 : fieldBad data "description" Val.isStr = true
  · simp [h0, h1, h2, h3, h4, alreadyReason_ne_start, alreadyReason_ne_send]
  by_cases h5 : fieldBad data "is_recurring" Val.isBool = true
  · simp [h0, h1, h2, h3, h4, h5, alreadyReason_ne_start, alreadyReason_ne_send]
  by_cases h6 : fieldBad data "authorities" Val.isList = true
  · simp [h0, h1, h2, h3, h4, h5, h6, alreadyReason_ne_start, alreadyReason_ne_send]
  by_cases e1 : (ft && fieldBad data "callback_url" Val.isStr) = true
  · simp [h0, h1, h2, h3, h4, h5, h6, e1, alreadyReason_ne_start, alreadyReason_ne_send]
  by_cases e2 : (ft && fieldBad data "extra" Val.isList) = true
  · simp [h0, h1, h2, h3, h4, h5, h6, e1, e2, alreadyReason_ne_start, alreadyReason_ne_send]
  by_cases e3 : (ft && fieldBad data "questions_data" Val.isList) = true
  · simp [h0, h1, h2, h3, h4, h5, h6, e1, e2, e3, alreadyReason_ne_start, alreadyReason_ne_send]
  by_cases hs : votingDateBad data "voting_start_date" = true
  · simp [h0, h1, h2, h3, h4, h5, h6, e1, e2, e3, hs]
  by_cases h8 : votingDateBad data "voting_end_date" = true
  · simp [h0, h1, h2, h3, h4, h5, h6, e1, e2, e3, hs, h8]
  by_cases h9 : reMatchIdFull (Val.asStr (dGetD data "election_id" Val.null)) = false
  · simp [h0, h1, h2, h3, h4, h5, h6, e1, e2, e3, hs, h8, h9, alreadyReason_ne_start, alreadyReason_ne_send]
  by_cases h10 : ((authoritiesOf data).length == 0) = true
  · simp [h0, h1, h2, h3, h4, h5, h6, e1, e2, e3, hs, h8, h9, h10, alreadyReason_ne_start, alreadyReason_ne_send]
  by_cases h11 : questionCountBad jl cfg data ft = true
  · simp [h0, h1, h2, h3, h4, h5, h6, e1, e2, e3, hs, h8, h9, h10, h11, alreadyReason_ne_start, alreadyReason_ne_send]
  by_cases h11b : (ft && db.elections.any (fun e => e.id == Val.asStr (dGetD data "election_id" Val.null))) = true
  · simp [h0, h1, h2, h3, h4, h5, h6, e1, e2, e3, hs, h8, h9, h10, h11, h11b, alreadyReason_ne_start, alreadyReason_ne_send]
  cases hafb : authFieldsFirstBad (authoritiesOf data) with
  | some r =>
    rcases afb_reasons _ _ hafb with hr | hr | hr | hr <;> subst hr <;>
      simp [h0, h1, h2, h3, h4, h5, h6, e1, e2, e3, hs, h8, h9, h10, h11, h11b, hafb]
  | none =>
    by_cases h12 : (!(decide (certsOf data).Nodup && decide (urlsOf data).Nodup)) = true
    · simp [h0, h1, h2, h3, h4, h5, h6, e1, e2, e3, hs, h8, h9, h10, h11, h11b, hafb, h12]
    · simp [h0, h1, h2, h3, h4, h5, h6, e1, e2, e3, hs, h8, h9, h10, h11, h11b, hafb, h12]

theorem amendedFV_send_reason (jl : String → Option Val) (cfg : Config) (db : DB)
    (data : Dict) (ft : Bool) :
    amendedFirstViolation jl cfg db data ft =
      some (.taskError "invalid voting_send_date parameter") →
    votingDateBad data "voting_end_date" = true := by
  unfold amendedFirstViolation
  by_cases h0 : (!ft && (loadsVal jl (dGetD data "questions_data" Val.null)).isNone) = true
  · simp [h0, alreadyReason_ne_start, alreadyReason_ne_send]
  by_cases h1 : fieldBad data "election_id" Val.isStr = true
  · simp [h0, h1, alreadyReason_ne_start, alreadyReason_ne_send]
  by_cases h2 : fieldBad data "title" Val.isStr = true
  · simp [h0, h1, h2, alreadyReason_ne_start, alreadyReason_ne_send]
  by_cases h3 : fieldBad data "url" Val.isStr = true
  · simp [h0, h1, h2, h3, alreadyReason_ne_start, alreadyReason_ne_send]
  by_cases h4 : fieldBad data "description" Val.isStr = true
  · simp [h0, h1, h2, h3, h4, alreadyReason_ne_start, alreadyReason_ne_send]
  by_cases h5 : fieldBad data "is_recurring" Val.isBool = true
  · simp [h0, h1, h2, h3, h4, h5, alreadyReason_ne_start, alreadyReason_ne_send]
  by_cases h6 : fieldBad data "authorities" Val.isList = true
  · simp [h0, h1, h2, h3, h4, h5, h6, alreadyReason_ne_start, alreadyReason_ne_send]
  by_cases e1 : (ft && fieldBad data "callback_url" Val.isStr) = true
  · simp [h0, h1, h2, h3, h4, h5, h6, e1, alreadyReason_ne_start, alreadyReason_ne_send]
  by_cases e2 : (ft && fieldBad data "extra" Val.isList) = true
  · simp [h0, h1, h2, h3, h4, h5, h6, e1, e2, alreadyReason_ne_start, alreadyReason_ne_send]
  by_cases e3 : (ft && fieldBad data "questions_data" Val.isList) = true
  · simp [h0, h1, h2, h3, h4, h5, h6, e1, e2, e3, alreadyReason_ne_start, alreadyReason_ne_send]
  by_cases h7 : votingDateBad data "voting_start_date" = true
  · simp [h0, h1, h2, h3, h4, h5, h6, e1, e2, e3, h7, alreadyReason_ne_start, alreadyReason_ne_send]
  by_cases hs : votingDateBad data "voting_end_date" = true
  · simp [h0, h1, h2, h3, h4, h5, h6, e1, e2, e3, h7, hs]
  by_cases h9 : reMatchIdFull (Val.asStr (dGetD data "election_id" Val.null)) = false
  · simp [h0, h1, h2, h3, h4, h5, h6, e1, e2, e3, h7, hs, h9, alreadyReason_ne_start, alreadyReason_ne_send]
  by_cases h10 : ((authoritiesOf data).length == 0) = true
  · simp [h0, h1, h2, h3, h4, h5, h6, e1, e2, e3, h7, hs, h9, h10, alreadyReason_ne_start, alreadyReason_ne_send]
  by_cases h11 : questionCountBad jl cfg data ft = true
  · simp [h0, h1, h2, h3, h4, h5, h6, e1, e2, e3, h7, hs, h9, h10, h11, alreadyReason_ne_start, alreadyReason_ne_send]
  by_cases h11b : (ft && db.elections.any (fun e => e.id == Val.asStr (dGetD data "election_id" Val.null))) = true
  · simp [h0, h1, h2, h3, h4, h5, h6, e1, e2, e3, h7, hs, h9, h10, h11, h11b, alreadyReason_ne_start, alreadyReason_ne_send]
  cases hafb : authFieldsFirstBad (authoritiesOf data) with
  | some r =>
    rcases afb_reasons _ _ hafb with hr | hr | hr | hr <;> subst hr <;>
      simp [h0, h1, h2, h3, h4, h5, h6, e1, e2, e3, h7, hs, h9, h10, h11, h11b, hafb]
  | none =>
    by_cases h12 : (!(decide (certsOf data).Nodup && decide (urlsOf data).Nodup)) = true
    · simp [h0, h1, h2, h3, h4, h5, h6, e1, e2, e3, h7, hs, h9, h10, h11, h11b, hafb, h12]
    · simp [h0, h1, h2, h3, h4, h5, h6, e1, e2, e3, h7, hs, h9, h10, h11, h11b, hafb, h12]


/-- C10: the validator requires the keys voting_start_date and
voting_end_date to be present in every submission that passes the earlier
checks: an absent key is rejected with "invalid voting_start_date parameter"
resp. the misspelt "invalid voting_send_date parameter", while a present key
whose value is null never triggers that rejection — only the value, not the
key, is optional. -/
theorem c10_voting_keys_required (jl : String → Option Val) (cfg : Config) (db : DB)
    (data : Dict) (ft : Bool)
    (hpre : (rule1_ok data && rule2_ok jl data ft) = true) :
    (dMem data "voting_start_date" = false →
      check_election_data jl cfg db data ft =
        .error (.taskError "invalid voting_start_date parameter")) ∧
    (dGet? data "voting_start_date" = some Val.null →
      check_election_data jl cfg db data ft ≠
        .error (.taskError "invalid voting_start_date parameter")) ∧
    (dGet? data "voting_start_date" = some Val.null → dMem data "voting_end_date" = false →
      check_election_data jl cfg db data ft =
        .error (.taskError "invalid voting_send_date parameter")) ∧
    (dGet? data "voting_end_date" = some Val.null →
      check_election_data jl cfg db data ft ≠
        .error (.taskError "invalid voting_send_date parameter")) := by
  simp only [Bool.and_eq_true] at hpre
  obtain ⟨hr1, hr2⟩ := hpre
  obtain ⟨hf1, hf2, hf3, hf4, hf5, hf6⟩ := rule1_components data hr1
  refine ⟨?_, ?_, ?_, ?_⟩
  · intro hmem
    have hvs : votingDateBad data "voting_start_date" = true := by
      simp [votingDateBad, hmem]
    rw [cce_spec, violationResult_error_iff]
    unfold amendedFirstViolation
    cases ft with
    | false =>
      simp only [rule2_ok] at hr2
      simp at hr2
      rw [Option.isSome_iff_exists] at hr2
      obtain ⟨v, hv⟩ := hr2
      simp [hf1, hf2, hf3, hf4, hf5, hf6, hvs, hv]
    | true =>
      simp only [rule2_ok, if_true] at hr2
      simp at hr2
      simp [hf1, hf2, hf3, hf4, hf5, hf6, hvs, hr2]
  · intro hnull hcontra
    have hvb := amendedFV_start_reason jl cfg db data ft
      ((violationResult_error_iff _ _).mp ((cce_spec jl cfg db data ft).symm.trans hcontra))
    simp [votingDateBad, dMem, dGetD, hnull, Val.isNull] at hvb
  · intro hnull hmem
    have hvs : votingDateBad data "voting_start_date" = false := by
      simp [votingDateBad, dMem, dGetD, hnull, Val.isNull]
    have hve : votingDateBad data "voting_end_date" = true := by
      simp [votingDateBad, hmem]
    rw [cce_spec, violationResult_error_iff]
    unfold amendedFirstViolation
    cases ft with
    | false =>
      simp only [rule2_ok] at hr2
      simp at hr2
      rw [Option.isSome_iff_exists] at hr2
      obtain ⟨v, hv⟩ := hr2
      simp [hf1, hf2, hf3, hf4, hf5, hf6, hvs, hve, hv]
    | true =>
      simp only [rule2_ok, if_true] at hr2
      simp at hr2
      simp [hf1, hf2, hf3, hf4, hf5, hf6, hvs, hve, hr2]
  · intro hnull hcontra
    have hvb := amendedFV_send_reason jl cfg db data ft
      ((violationResult_error_iff _ _).mp ((cce_spec jl cfg db data ft).symm.trans hcontra))
    simp [votingDateBad, dMem, dGetD, hnull, Val.isNull] at hvb

/-- C8 counterexample: an authority list in which two authorities share a name
(with distinct certificates and endpoints) is accepted by the validator, so
name collisions are not rejected as the claim states. -/
theorem c8_uniqueness_counterexample :
    check_election_data jl0 cfg0 db0 dupNameInput false = .ok () ∧
    namesOf dupNameInput = [Val.str "dup", Val.str "dup"] := by
  constructor
  · decide
  · decide

/-- C8 witness: the amended claim evaluated on the shared-name list, which the
validator accepts. -/
theorem c8_uniqueness_witness :
    check_election_data jl0 cfg0 db0 dupNameInput false = .ok () :=
  (c8_uniqueness_amended jl0 cfg0 db0 dupNameInput false (by decide)).2
    ⟨by decide, by decide⟩

/-- C10 witness: evaluated at a submission lacking the start key (rejected
with the claimed reason) and at one carrying null values (not rejected for
either date reason). -/
theorem c10_voting_keys_witness :
    check_election_data jl0 cfg0 db0 startMissingInput false =
      .error (.taskError "invalid voting_start_date parameter") ∧
    check_election_data jl0 cfg0 db0 nullDatesInput false ≠
      .error (.taskError "invalid voting_start_date parameter") ∧
    check_election_data jl0 cfg0 db0 nullDatesInput false ≠
      .error (.taskError "invalid voting_send_date parameter") :=
  ⟨(c10_voting_keys_required jl0 cfg0 db0 startMissingInput false (by decide)).1 rfl,
   (c10_voting_keys_required jl0 cfg0 db0 nullDatesInput false (by decide)).2.1 rfl,
   (c10_voting_keys_required jl0 cfg0 db0 nullDatesInput false (by decide)).2.2.2 rfl⟩


/-- C4: in `generate_private_info_verificatum`, with auto-accept off, any
decision other than exactly `dict(status="accepted")` fails the step with
"task not accepted" for every CryptoEngine — before any engine invocation and
without touching the state — while the exact accepted decision makes the run
equal to the auto-accept-on run; with auto-accept on the decision is never
consulted (the result is the same for every decision value). -/
theorem c4_approval_gate (cfg : Config) (engine : VmniEngine) (decision : Val)
    (parent_input : Dict) (st : OState) :
    (cfg.autoaccept_requests = false → decision ≠ acceptedDecision →
      ∀ eng2 : VmniEngine,
        generate_private_info_verificatum cfg eng2 decision parent_input st =
          (.error (.taskError "task not accepted"), st)) ∧
    (cfg.autoaccept_requests = false → decision = acceptedDecision →
      generate_private_info_verificatum cfg engine decision parent_input st =
        generate_private_info_verificatum
          { cfg with autoaccept_requests := true } engine decision parent_input st) ∧
    (cfg.autoaccept_requests = true → ∀ d2 : Val,
      generate_private_info_verificatum cfg engine decision parent_input st =
        generate_private_info_verificatum cfg engine d2 parent_input st) := by
  refine ⟨?_, ?_, ?_⟩
  · intro hoff hne eng2
    unfold generate_private_info_verificatum
    simp [hoff, hne]
  · intro hoff heq
    subst heq
    unfold generate_private_info_verificatum
    simp [hoff]
  · intro hon d2
    unfold generate_private_info_verificatum
    simp [hon]


def engine0 : VmniEngine := fun _ _ _ _ => some "PROTO"

def cfgManual : Config := { cfg0 with autoaccept_requests := false }

/-- C4 witness: the gate evaluated with auto-accept off, on a rejected and on
an accepted decision. -/
theorem c4_approval_gate_witness :
    generate_private_info_verificatum cfgManual engine0 (Val.str "rejected") goodInput st0 =
      (.error (.taskError "task not accepted"), st0) ∧
    generate_private_info_verificatum cfgManual engine0 acceptedDecision goodInput st0 =
      generate_private_info_verificatum
        { cfgManual with autoaccept_requests := true } engine0 acceptedDecision goodInput st0 :=
  ⟨(c4_approval_gate cfgManual engine0 (Val.str "rejected") goodInput st0).1 rfl
     (by decide) engine0,
   (c4_approval_gate cfgManual engine0 acceptedDecision goodInput st0).2.1 rfl rfl⟩

theorem memPath_iff (l : List Path) (p : Path) : memPath l p = true ↔ p ∈ l := by
  induction l with
  | nil => simp [memPath]
  | cons q rest ih =>
    unfold memPath
    split_ifs with h
    · simp [h]
    · simp [ih, Ne.symm h]

theorem memPath_append (l1 l2 : List Path) (p : Path) :
    memPath (l1 ++ l2) p = (memPath l1 p || memPath l2 p) := by
  induction l1 with
  | nil => simp [memPath]
  | cons q rest ih => by_cases h : q = p <;> simp [memPath, h, ih, Bool.or_assoc]

theorem writeFile_pathExists_mono (fs : FS) (p q : Path) (c : String)
    (h : fs.pathExists p = true) : (fs.writeFile q c).pathExists p = true := by
  unfold FS.pathExists FS.isDir FS.fileExists FS.fileContent at h ⊢
  unfold FS.writeFile
  simp only [Bool.or_eq_true] at h ⊢
  rcases h with h | h
  · exact Or.inl h
  · right
    unfold lookupFile
    by_cases hq : q = p <;> simp [hq, h]

theorem mkdir_pathExists_mono (fs : FS) (p q : Path)
    (h : fs.pathExists p = true) : (fs.mkdirRecursive q).pathExists p = true := by
  unfold FS.pathExists FS.isDir FS.fileExists FS.fileContent at h ⊢
  unfold FS.mkdirRecursive
  simp only [Bool.or_eq_true] at h ⊢
  rcases h with h | h
  · left
    rw [memPath_append]
    simp [h]
  · right
    exact h

theorem append_singleton_ne {p q : Path} {a b : String} (h : a ≠ b) :
    p ++ [a] ≠ q ++ [b] := by
  intro he
  have h2 := congrArg List.getLast? he
  rw [List.getLast?_concat, List.getLast?_concat] at h2
  exact h (Option.some.inj h2)

theorem lookupFile_cons_ne (files : List (Path × String)) (p q : Path) (c : String)
    (h : p ≠ q) : lookupFile ((p, c) :: files) q = lookupFile files q := by
  simp [lookupFile, h]

theorem lookupFile_cons_self (files : List (Path × String)) (p : Path) (c : String) :
    lookupFile ((p, c) :: files) p = some c := by
  simp [lookupFile]


theorem mkdir_fileContent (fs : FS) (p q : Path) :
    (fs.mkdirRecursive q).fileContent p = fs.fileContent p := rfl

theorem fileExists_pathExists (fs : FS) (p : Path)
    (h : fs.fileExists p = true) : fs.pathExists p = true := by
  simp [FS.pathExists, h]

theorem writeFile_fileContent_self (fs : FS) (p : Path) (c : String) :
    (fs.writeFile p c).fileContent p = some c := by
  simp [FS.writeFile, FS.fileContent, lookupFile]

theorem writeFile_fileContent_ne (fs : FS) (p q : Path) (c : String) (h : p ≠ q) :
    (fs.writeFile p c).fileContent q = fs.fileContent q := by
  simp [FS.writeFile, FS.fileContent, lookupFile, h]

theorem gpk_generate_publish_ok (cfg : Config) (vmn : VmnEngine) (vmnc : VmncEngine)
    (eid sid : String) (fsx fs1 : FS)
    (h : gpk_generate_publish cfg vmn vmnc eid sid fsx = (.ok (), fs1)) :
    fs1.fileExists ((cfg.private_data_path ++ [eid, sid]) ++ ["publicKey_raw"]) = true ∧
    (∀ p, fsx.pathExists p = true → fs1.pathExists p = true) := by
  unfold gpk_generate_publish at h
  dsimp only [] at h
  cases hv : vmn (cfg.private_data_path ++ [eid, sid]) with
  | none => rw [hv] at h; simp at h
  | some rawC =>
  rw [hv] at h
  dsimp only [] at h
  cases hc : vmnc (cfg.private_data_path ++ [eid, sid]) with
  | none => rw [hc] at h; simp at h
  | some jsonC =>
  rw [hc] at h
  dsimp only [] at h
  by_cases hpub : (((fsx.writeFile ((cfg.private_data_path ++ [eid, sid]) ++ ["publicKey_raw"]) rawC).writeFile
      ((cfg.private_data_path ++ [eid, sid]) ++ ["publicKey_json"]) jsonC).pathExists
      (cfg.public_data_path ++ [eid, sid])) = true
  · rw [if_pos hpub] at h
    rw [writeFile_fileContent_self] at h
    dsimp only [] at h
    rw [writeFile_fileContent_ne _ _ _ _ (append_singleton_ne (by decide)),
      writeFile_fileContent_ne _ _ _ _ (append_singleton_ne (by decide)),
      writeFile_fileContent_ne _ _ _ _ (append_singleton_ne (by decide))] at h
    cases hpc : fsx.fileContent ((cfg.private_data_path ++ [eid, sid]) ++ ["protInfo.xml"]) with
    | none => rw [hpc] at h; simp at h
    | some pc =>
      rw [hpc] at h
      simp only [Prod.mk.injEq] at h
      obtain ⟨-, hfs⟩ := h
      subst hfs
      constructor
      · unfold FS.fileExists
        rw [writeFile_fileContent_ne _ _ _ _ (append_singleton_ne (by decide)),
          writeFile_fileContent_ne _ _ _ _ (append_singleton_ne (by decide)),
          writeFile_fileContent_ne _ _ _ _ (append_singleton_ne (by decide)),
          writeFile_fileContent_self]
        rfl
      · intro p hp
        exact writeFile_pathExists_mono _ _ _ _ (writeFile_pathExists_mono _ _ _ _
          (writeFile_pathExists_mono _ _ _ _ (writeFile_pathExists_mono _ _ _ _ hp)))
  · rw [if_neg hpub] at h
    rw [mkdir_fileContent, writeFile_fileContent_self] at h
    dsimp only [] at h
    rw [writeFile_fileContent_ne _ _ _ _ (append_singleton_ne (by decide)),
      mkdir_fileContent,
      writeFile_fileContent_ne _ _ _ _ (append_singleton_ne (by decide)),
      writeFile_fileContent_ne _ _ _ _ (append_singleton_ne (by decide))] at h
    cases hpc : fsx.fileContent ((cfg.private_data_path ++ [eid, sid]) ++ ["protInfo.xml"]) with
    | none => rw [hpc] at h; simp at h
    | some pc =>
      rw [hpc] at h
      simp only [Prod.mk.injEq] at h
      obtain ⟨-, hfs⟩ := h
      subst hfs
      constructor
      · unfold FS.fileExists
        rw [writeFile_fileContent_ne _ _ _ _ (append_singleton_ne (by decide)),
          writeFile_fileContent_ne _ _ _ _ (append_singleton_ne (by decide)),
          mkdir_fileContent,
          writeFile_fileContent_ne _ _ _ _ (append_singleton_ne (by decide)),
          writeFile_fileContent_self]
        rfl
      · intro p hp
        exact writeFile_pathExists_mono _ _ _ _ (writeFile_pathExists_mono _ _ _ _
          (mkdir_pathExists_mono _ _ _ (writeFile_pathExists_mono _ _ _ _
            (writeFile_pathExists_mono _ _ _ _ hp))))


/-- C1: `generate_public_key` on a session whose private directory exists and
whose raw or encoded key file already exists fails with
"pubkey already created" and returns the filesystem unchanged; in particular
a second call after any successful first call always fails this way. -/
theorem c1_keypublisher_write_once (cfg : Config) (vmn : VmnEngine) (vmnc : VmncEngine)
    (input : Dict) (fs : FS) (eid sid : String)
    (hs : dGet? input "session_id" = some (Val.str sid))
    (he : dGet? input "election_id" = some (Val.str eid)) :
    (fs.pathExists (cfg.private_data_path ++ [eid, sid]) = true →
     (fs.pathExists (cfg.private_data_path ++ [eid, sid, "publicKey_raw"]) ||
      fs.pathExists (cfg.private_data_path ++ [eid, sid, "publicKey_json"])) = true →
     generate_public_key cfg vmn vmnc input fs =
       (.error (.taskError "pubkey already created"), fs)) ∧
    (∀ fs1, generate_public_key cfg vmn vmnc input fs = (.ok (), fs1) →
      generate_public_key cfg vmn vmnc input fs1 =
        (.error (.taskError "pubkey already created"), fs1)) := by
  constructor
  · intro h1 h2
    unfold generate_public_key
    rw [hs, he]
    dsimp only []
    simp only [List.append_assoc, List.cons_append, List.nil_append]
    rw [h1]
    simp only [Bool.not_true, Bool.false_eq_true, if_false]
    rw [h2]
    simp
  · intro fs1 hsucc
    unfold generate_public_key at hsucc
    rw [hs, he] at hsucc
    dsimp only [] at hsucc
    simp only [List.append_assoc, List.cons_append, List.nil_append] at hsucc
    by_cases hex : fs.pathExists (cfg.private_data_path ++ [eid, sid]) = true
    swap
    · simp [hex] at hsucc
    rw [hex] at hsucc
    simp only [Bool.not_true, Bool.false_eq_true, if_false] at hsucc
    by_cases hg : (fs.pathExists (cfg.private_data_path ++ [eid, sid, "publicKey_raw"]) ||
        fs.pathExists (cfg.private_data_path ++ [eid, sid, "publicKey_json"])) = true
    · rw [hg] at hsucc
      simp at hsucc
    rw [Bool.or_eq_true] at hg
    push_neg at hg
    simp only [Bool.not_eq_true] at hg
    rw [hg.1, hg.2] at hsucc
    simp only [Bool.or_self, Bool.false_eq_true, if_false] at hsucc
    have hafter : ∃ fsmid, gpk_generate_publish cfg vmn vmnc eid sid fsmid = (.ok (), fs1) ∧
        fsmid.pathExists (cfg.private_data_path ++ [eid, sid]) = true := by
      by_cases hpi : fs.pathExists (cfg.private_data_path ++ [eid, sid, "protInfo.xml"]) = true
      · rw [if_pos hpi] at hsucc
        exact ⟨fs, hsucc, hex⟩
      · rw [if_neg hpi] at hsucc
        cases hc : dGet? input "protInfo_content" with
        | none => rw [hc] at hsucc; simp at hsucc
        | some v =>
          rw [hc] at hsucc
          cases v with
          | str c =>
            refine ⟨fs.writeFile (cfg.private_data_path ++ [eid, sid, "protInfo.xml"]) c,
              hsucc, ?_⟩
            exact writeFile_pathExists_mono _ _ _ _ hex
          | null => simp at hsucc
          | boolean b => simp at hsucc
          | int n => simp at hsucc
          | date d => simp at hsucc
          | list l => simp at hsucc
          | dict d => simp at hsucc
    obtain ⟨fsmid, hrun, hmid⟩ := hafter
    obtain ⟨hraw, hmono⟩ := gpk_generate_publish_ok cfg vmn vmnc eid sid fsmid fs1 hrun
    simp only [List.append_assoc, List.cons_append, List.nil_append] at hraw
    unfold generate_public_key
    rw [hs, he]
    dsimp only []
    simp only [List.append_assoc, List.cons_append, List.nil_append]
    rw [hmono _ hmid]
    simp only [Bool.not_true, Bool.false_eq_true, if_false]
    have hg1 : (fs1.pathExists (cfg.private_data_path ++ [eid, sid, "publicKey_raw"]) ||
        fs1.pathExists (cfg.private_data_path ++ [eid, sid, "publicKey_json"])) = true := by
      rw [fileExists_pathExists _ _ hraw]
      rfl
    rw [hg1]
    simp


def vmn0 : VmnEngine := fun _ => some "RAWKEY"

def vmnc0 : VmncEngine := fun _ => some "JSONKEY"

def gpkInput : Dict :=
  [("session_id", Val.str "s1"), ("election_id", Val.str "myel"),
   ("protInfo_content", Val.str "PROTOINFO")]

def fsC1 : FS :=
  { dirs := [["priv"], ["priv", "myel"], ["priv", "myel", "s1"]], files := [] }

/-- C1 witness: a successful first key generation followed by a second call,
which fails with "pubkey already created" and leaves the filesystem as it
was. -/
theorem c1_keypublisher_witness :
    generate_public_key cfg0 vmn0 vmnc0 gpkInput
      (generate_public_key cfg0 vmn0 vmnc0 gpkInput fsC1).2 =
      (.error (.taskError "pubkey already created"),
       (generate_public_key cfg0 vmn0 vmnc0 gpkInput fsC1).2) ∧
    generate_public_key cfg0 vmn0 vmnc0 gpkInput
      (generate_public_key cfg0 vmn0 vmnc0 gpkInput fsC1).2 =
      (.error (.taskError "pubkey already created"),
       (generate_public_key cfg0 vmn0 vmnc0 gpkInput fsC1).2) :=
  ⟨(c1_keypublisher_write_once cfg0 vmn0 vmnc0 gpkInput fsC1 "myel" "s1" rfl rfl).2
     (generate_public_key cfg0 vmn0 vmnc0 gpkInput fsC1).2 (by decide),
   (c1_keypublisher_write_once cfg0 vmn0 vmnc0 gpkInput
       (generate_public_key cfg0 vmn0 vmnc0 gpkInput fsC1).2 "myel" "s1" rfl rfl).1
     (by decide) (by decide)⟩


theorem vmni_loop_ok_map (engine : VmniEngine) (nm surl hurl : String) (epriv : Path) :
    ∀ (ss : List Val) (fs fs2 : FS) (cs : List String),
      vmni_loop engine (some nm) surl hurl epriv ss fs = (.ok cs, fs2) →
      cs = ss.map (fun s => (engine nm surl hurl (epriv ++ [sessId s])).getD "")
  | [], fs, fs2, cs, h => by
    simp only [vmni_loop, Prod.mk.injEq] at h
    simp only [List.map_nil]
    exact (Except.ok.inj h.1).symm
  | s :: rest, fs, fs2, cs, h => by
    unfold vmni_loop at h
    cases s with
    | dict d =>
      dsimp only [] at h
      cases hid : dGet? d "id" with
      | none => rw [hid] at h; simp at h
      | some v =>
        rw [hid] at h
        cases v with
        | str sid =>
          dsimp only [] at h
          cases heng : engine nm surl hurl (epriv ++ [sid]) with
          | none => rw [heng] at h; simp at h
          | some content =>
            rw [heng] at h
            dsimp only [] at h
            rw [writeFile_fileContent_self] at h
            cases hrec : vmni_loop engine (some nm) surl hurl epriv rest
                ((fs.writeFile (epriv ++ [sid] ++ ["localProtInfo.xml"]) content)) with
            | mk exc f2 =>
              rw [hrec] at h
              cases exc with
              | error e => simp at h
              | ok cs2 =>
                simp only [Prod.mk.injEq, Except.ok.injEq] at h
                have ih := vmni_loop_ok_map engine nm surl hurl epriv rest _ f2 cs2 hrec
                rw [← h.1, ih]
                simp [sessId, dGetD, hid, Val.asStr, Val.asDict, heng]
        | null => simp at h
        | boolean b => simp at h
        | int n => simp at h
        | date dd => simp at h
        | list l => simp at h
        | dict d2 => simp at h
    | str a => simp at h
    | boolean b => simp at h
    | int n => simp at h
    | date dd => simp at h
    | null => simp at h
    | list l => simp at h

theorem vmni_loop_none_auth (engine : VmniEngine) (surl hurl : String) (epriv : Path)
    (s : Val) (rest : List Val) (fs : FS) (cs : List String) (fs2 : FS) :
    vmni_loop engine none surl hurl epriv (s :: rest) fs ≠ (.ok cs, fs2) := by
  intro h
  unfold vmni_loop at h
  cases s with
  | dict d =>
    dsimp only [] at h
    cases hid : dGet? d "id" with
    | none => rw [hid] at h; simp at h
    | some v =>
      rw [hid] at h
      cases v with
      | str sid => simp at h
      | null => simp at h
      | boolean b => simp at h
      | int n => simp at h
      | date dd => simp at h
      | list l => simp at h
      | dict d2 => simp at h
  | str a => simp at h
  | boolean b => simp at h
  | int n => simp at h
  | date dd => simp at h
  | null => simp at h
  | list l => simp at h

theorem vmni_loop_engine_fail (engine : VmniEngine) (nm surl hurl : String)
    (epriv : Path) :
    ∀ (ss : List Val) (fs : FS) (s : Val), s ∈ ss →
      engine nm surl hurl (epriv ++ [sessId s]) = none →
      ∀ cs fs2, vmni_loop engine (some nm) surl hurl epriv ss fs ≠ (.ok cs, fs2)
  | [], fs, s, hm, _, cs, fs2 => by simp at hm
  | s0 :: rest, fs, s, hm, heng, cs, fs2 => by
    intro h
    unfold vmni_loop at h
    cases s0 with
    | dict d =>
      dsimp only [] at h
      cases hid : dGet? d "id" with
      | none => rw [hid] at h; simp at h
      | some v =>
        rw [hid] at h
        cases v with
        | str sid =>
          dsimp only [] at h
          cases heng0 : engine nm surl hurl (epriv ++ [sid]) with
          | none => rw [heng0] at h; simp at h
          | some content =>
            rw [heng0] at h
            dsimp only [] at h
            rw [writeFile_fileContent_self] at h
            rcases List.mem_cons.mp hm with hs | hs
            · subst hs
              have : sessId (Val.dict d) = sid := by
                simp [sessId, dGetD, hid, Val.asStr, Val.asDict]
              rw [this] at heng
              rw [heng] at heng0
              exact Option.noConfusion heng0
            · cases hrec : vmni_loop engine (some nm) surl hurl epriv rest
                  ((fs.writeFile (epriv ++ [sid] ++ ["localProtInfo.xml"]) content)) with
              | mk exc f2 =>
                rw [hrec] at h
                cases exc with
                | error e => simp at h
                | ok cs2 =>
                  exact vmni_loop_engine_fail engine nm surl hurl epriv rest _ s hs heng
                    cs2 f2 hrec
        | null => simp at h
        | boolean b => simp at h
        | int n => simp at h
        | date dd => simp at h
        | list l => simp at h
        | dict d2 => simp at h
    | str a => simp at h
    | boolean b => simp at h
    | int n => simp at h
    | date dd => simp at h
    | null => simp at h
    | list l => simp at h


/-- C6: a successful phase-1 run reports exactly one descriptor per session,
in submission order — the output equals the per-session engine outputs mapped
over the session list, and its length equals the number of sessions — while a
CryptoEngine failure for any one session makes the whole step return an
error, so no sequence (not even a partial one) is reported. -/
theorem c6_phase1_descriptors (cfg : Config) (engine : VmniEngine) (prev : Val)
    (parent : Dict) (st : OState) (eid : String) (sessionsV auths : List Val)
    (h1 : dGet? parent "election_id" = some (Val.str eid))
    (h2 : dGet? parent "sessions" = some (Val.list sessionsV))
    (h3 : dGet? parent "authorities" = some (Val.list auths)) :
    (∀ protinfos st2,
      generate_private_info_verificatum cfg engine prev parent st = (.ok protinfos, st2) →
      protinfos = sessionsV.map (fun s =>
        (engine ((computeAuthName cfg.root_url auths).getD "") cfg.server_url
          cfg.hint_server_url (cfg.private_data_path ++ [eid] ++ [sessId s])).getD "") ∧
      protinfos.length = sessionsV.length) ∧
    ((∃ s ∈ sessionsV, engine ((computeAuthName cfg.root_url auths).getD "")
        cfg.server_url cfg.hint_server_url
        (cfg.private_data_path ++ [eid] ++ [sessId s]) = none) →
      ∃ e st2, generate_private_info_verificatum cfg engine prev parent st =
        (.error e, st2)) := by
  have hnotok : ∀ protinfos st2,
      generate_private_info_verificatum cfg engine prev parent st = (.ok protinfos, st2) →
      protinfos = sessionsV.map (fun s =>
        (engine ((computeAuthName cfg.root_url auths).getD "") cfg.server_url
          cfg.hint_server_url (cfg.private_data_path ++ [eid] ++ [sessId s])).getD "") ∧
      (¬ ∃ s ∈ sessionsV, engine ((computeAuthName cfg.root_url auths).getD "")
        cfg.server_url cfg.hint_server_url
        (cfg.private_data_path ++ [eid] ++ [sessId s]) = none) := by
    intro protinfos st2 h
    unfold generate_private_info_verificatum at h
    rw [h1, h2, h3] at h
    dsimp only [] at h
    by_cases hgate : (!cfg.autoaccept_requests && !decide (prev = acceptedDecision)) = true
    · rw [hgate] at h
      simp at h
    · simp only [hgate, Bool.false_eq_true, if_false] at h
      simp only [Val.isList, Val.asList, Bool.not_true, Bool.false_eq_true, if_false] at h
      cases hloop : vmni_loop engine (computeAuthName cfg.root_url auths)
          cfg.server_url cfg.hint_server_url (cfg.private_data_path ++ [eid])
          sessionsV st.fs with
      | mk exc f2 =>
        rw [hloop] at h
        cases exc with
        | error e => simp at h
        | ok cs =>
          simp only [Prod.mk.injEq, Except.ok.injEq] at h
          cases han : computeAuthName cfg.root_url auths with
          | some nm =>
            rw [han] at hloop
            constructor
            · rw [← h.1, vmni_loop_ok_map engine nm cfg.server_url cfg.hint_server_url
                (cfg.private_data_path ++ [eid]) sessionsV st.fs f2 cs hloop]
              simp [han]
            · rintro ⟨s, hm, heng⟩
              simp only [han, Option.getD_some] at heng
              exact vmni_loop_engine_fail engine nm cfg.server_url cfg.hint_server_url
                (cfg.private_data_path ++ [eid]) sessionsV st.fs s hm heng cs f2 hloop
          | none =>
            rw [han] at hloop
            cases sessionsV with
            | nil =>
              simp only [vmni_loop, Prod.mk.injEq] at hloop
              constructor
              · rw [← h.1, List.map_nil]
                exact (Except.ok.inj hloop.1).symm
              · rintro ⟨s, hm, -⟩
                simp at hm
            | cons s0 rest =>
              exact absurd hloop (vmni_loop_none_auth engine cfg.server_url
                cfg.hint_server_url (cfg.private_data_path ++ [eid]) s0 rest st.fs cs f2)
  constructor
  · intro protinfos st2 h
    obtain ⟨hmap, -⟩ := hnotok protinfos st2 h
    exact ⟨hmap, by rw [hmap]; simp⟩
  · intro hex
    cases hrun : generate_private_info_verificatum cfg engine prev parent st with
    | mk exc st2 =>
      cases exc with
      | error e => exact ⟨e, st2, rfl⟩
      | ok ps => exact absurd hex (hnotok ps st2 hrun).2


/-- C6 witness: the one-session election evaluated with a concrete engine. -/
theorem c6_phase1_witness :
    ["PROTO"] = [sess1].map (fun s =>
      (engine0 ((computeAuthName cfg0.root_url [auth1, auth2]).getD "") cfg0.server_url
        cfg0.hint_server_url (cfg0.private_data_path ++ ["myel"] ++ [sessId s])).getD "") ∧
    (["PROTO"] : List String).length = [sess1].length :=
  (c6_phase1_descriptors cfg0 engine0 Val.null goodInput st0 "myel" [sess1] [auth1, auth2]
    rfl rfl rfl).1 ["PROTO"]
    (generate_private_info_verificatum cfg0 engine0 Val.null goodInput st0).2 (by decide)

theorem writeFile_isDir (fs : FS) (p q : Path) (c : String) :
    (fs.writeFile q c).isDir p = fs.isDir p := rfl

theorem writeFile_fileExists_mono (fs : FS) (p q : Path) (c : String)
    (h : fs.fileExists p = true) : (fs.writeFile q c).fileExists p = true := by
  unfold FS.fileExists FS.fileContent at h ⊢
  unfold FS.writeFile lookupFile
  by_cases hq : q = p <;> simp [hq, h]

theorem mkdir_isDir_mono (fs : FS) (p q : Path)
    (h : fs.isDir p = true) : (fs.mkdirRecursive q).isDir p = true := by
  unfold FS.isDir at h ⊢
  unfold FS.mkdirRecursive
  rw [memPath_append]
  simp [h]

theorem mkdir_fileExists (fs : FS) (p q : Path) :
    (fs.mkdirRecursive q).fileExists p = fs.fileExists p := rfl

theorem self_mem_pathAncestors (p : Path) (h : p ≠ []) :
    memPath (pathAncestors p) p = true := by
  rw [memPath_iff]
  unfold pathAncestors
  rw [List.mem_map]
  refine ⟨p.length - 1, ?_, ?_⟩
  · rw [List.mem_range]
    have := List.length_pos.mpr h
    omega
  · have hlen : p.length - 1 + 1 = p.length := by
      have := List.length_pos.mpr h
      omega
    rw [hlen, List.take_length]

theorem pre_mem_pathAncestors (p : Path) (x : String) (h : p ≠ []) :
    memPath (pathAncestors (p ++ [x])) p = true := by
  rw [memPath_iff]
  unfold pathAncestors
  rw [List.mem_map]
  refine ⟨p.length - 1, ?_, ?_⟩
  · rw [List.mem_range, List.length_append]
    have := List.length_pos.mpr h
    simp
    omega
  · have hlen : p.length - 1 + 1 = p.length := by
      have := List.length_pos.mpr h
      omega
    rw [hlen, List.take_left]

theorem pathAncestors_short (r q : Path) (h : memPath (pathAncestors r) q = true) :
    q.length ≤ r.length := by
  rw [memPath_iff] at h
  unfold pathAncestors at h
  rw [List.mem_map] at h
  obtain ⟨i, hi, hq⟩ := h
  rw [← hq, List.length_take]
  omega


theorem bs_elections (eid : String) (ep : Path) :
    ∀ (ss : List Val) (i : Nat) (db : DB) (fs : FS),
      (bootstrapSessions eid ep ss i db fs).1.elections = db.elections
  | [], _, _, _ => rfl
  | s :: rest, i, db, fs => by
    unfold bootstrapSessions
    dsimp only []
    rw [bs_elections eid ep rest (i + 1) _ _]

theorem bs_authorities (eid : String) (ep : Path) :
    ∀ (ss : List Val) (i : Nat) (db : DB) (fs : FS),
      (bootstrapSessions eid ep ss i db fs).1.authorities = db.authorities
  | [], _, _, _ => rfl
  | s :: rest, i, db, fs => by
    unfold bootstrapSessions
    dsimp only []
    rw [bs_authorities eid ep rest (i + 1) _ _]

theorem bs_sessions (eid : String) (ep : Path) :
    ∀ (ss : List Val) (i : Nat) (db : DB) (fs : FS),
      (bootstrapSessions eid ep ss i db fs).1.sessions =
        db.sessions ++ sessionRowsFrom eid ss i
  | [], i, db, fs => by simp [bootstrapSessions, sessionRowsFrom]
  | s :: rest, i, db, fs => by
    unfold bootstrapSessions sessionRowsFrom
    dsimp only []
    rw [bs_sessions eid ep rest (i + 1) _ _]
    simp

theorem sessionRowsFrom_length (eid : String) :
    ∀ (ss : List Val) (i : Nat), (sessionRowsFrom eid ss i).length = ss.length
  | [], _ => rfl
  | s :: rest, i => by
    unfold sessionRowsFrom
    simp [sessionRowsFrom_length eid rest (i + 1)]

theorem sessionRowsFrom_get (eid : String) :
    ∀ (ss : List Val) (i k : Nat) (hk : k < ss.length),
      (sessionRowsFrom eid ss i).get? k =
        some { id := sessId (ss.get ⟨k, hk⟩), election_id := eid, status := "default",
               public_key := "", question_number := i + k }
  | [], i, k, hk => by simp at hk
  | s :: rest, i, 0, hk => by simp [sessionRowsFrom]
  | s :: rest, i, k + 1, hk => by
    unfold sessionRowsFrom
    rw [List.get?_cons_succ]
    rw [sessionRowsFrom_get eid rest (i + 1) k (by simpa using Nat.lt_of_succ_lt_succ hk)]
    have : i + 1 + k = i + (k + 1) := by omega
    simp [this]

theorem bs_isDir_mono (eid : String) (ep : Path) :
    ∀ (ss : List Val) (i : Nat) (db : DB) (fs : FS) (p : Path),
      fs.isDir p = true → (bootstrapSessions eid ep ss i db fs).2.isDir p = true
  | [], _, _, _, _, h => h
  | s :: rest, i, db, fs, p, h => by
    unfold bootstrapSessions
    dsimp only []
    exact bs_isDir_mono eid ep rest (i + 1) _ _ p (mkdir_isDir_mono _ _ _ h)

theorem bs_fileExists_mono (eid : String) (ep : Path) :
    ∀ (ss : List Val) (i : Nat) (db : DB) (fs : FS) (p : Path),
      fs.fileExists p = true → (bootstrapSessions eid ep ss i db fs).2.fileExists p = true
  | [], _, _, _, _, h => h
  | s :: rest, i, db, fs, p, h => by
    unfold bootstrapSessions
    dsimp only []
    refine bs_fileExists_mono eid ep rest (i + 1) _ _ p ?_
    rw [show ((fs.mkdirRecursive (ep ++ [sessId s])).writeFile
        (ep ++ [sessId s] ++ ["stub.xml"]) (stubOf s)).fileExists p =
        ((fs.mkdirRecursive (ep ++ [sessId s])).writeFile
        (ep ++ [sessId s] ++ ["stub.xml"]) (stubOf s)).fileExists p from rfl]
    exact writeFile_fileExists_mono _ _ _ _ (by rw [mkdir_fileExists]; exact h)

theorem bs_isDir_session (eid : String) (ep : Path) :
    ∀ (ss : List Val) (i : Nat) (db : DB) (fs : FS) (s : Val), s ∈ ss →
      (bootstrapSessions eid ep ss i db fs).2.isDir (ep ++ [sessId s]) = true
  | [], _, _, _, s, hm => by simp at hm
  | s0 :: rest, i, db, fs, s, hm => by
    unfold bootstrapSessions
    dsimp only []
    rcases List.mem_cons.mp hm with hs | hs
    · subst hs
      refine bs_isDir_mono eid ep rest (i + 1) _ _ _ ?_
      rw [writeFile_isDir]
      unfold FS.isDir FS.mkdirRecursive
      rw [memPath_append]
      rw [self_mem_pathAncestors (ep ++ [sessId s]) (by simp)]
      rfl
    · exact bs_isDir_session eid ep rest (i + 1) _ _ s hs

theorem bs_stub_exists (eid : String) (ep : Path) :
    ∀ (ss : List Val) (i : Nat) (db : DB) (fs : FS) (s : Val), s ∈ ss →
      (bootstrapSessions eid ep ss i db fs).2.fileExists
        (ep ++ [sessId s] ++ ["stub.xml"]) = true
  | [], _, _, _, s, hm => by simp at hm
  | s0 :: rest, i, db, fs, s, hm => by
    unfold bootstrapSessions
    dsimp only []
    rcases List.mem_cons.mp hm with hs | hs
    · subst hs
      refine bs_fileExists_mono eid ep rest (i + 1) _ _ _ ?_
      unfold FS.fileExists
      rw [writeFile_fileContent_self]
      rfl
    · exact bs_stub_exists eid ep rest (i + 1) _ _ s hs


theorem bs_fileContent_other (eid : String) (ep : Path) :
    ∀ (ss : List Val) (i : Nat) (db : DB) (fs : FS) (q : Path),
      (∀ s2 ∈ ss, ep ++ [sessId s2] ++ ["stub.xml"] ≠ q) →
      (bootstrapSessions eid ep ss i db fs).2.fileContent q = fs.fileContent q
  | [], _, _, _, _, _ => rfl
  | s0 :: rest, i, db, fs, q, hne => by
    unfold bootstrapSessions
    dsimp only []
    rw [bs_fileContent_other eid ep rest (i + 1) _ _ q
      (fun s2 hs2 => hne s2 (List.mem_cons_of_mem s0 hs2))]
    rw [writeFile_fileContent_ne _ _ _ _ (hne s0 (List.mem_cons_self s0 rest))]
    rw [mkdir_fileContent]

theorem bs_stub_content (eid : String) (ep : Path) :
    ∀ (ss : List Val) (i : Nat) (db : DB) (fs : FS) (s : Val),
      (ss.map sessId).Nodup → s ∈ ss →
      (bootstrapSessions eid ep ss i db fs).2.fileContent
        (ep ++ [sessId s] ++ ["stub.xml"]) = some (stubOf s)
  | [], _, _, _, s, _, hm => by simp at hm
  | s0 :: rest, i, db, fs, s, hnd, hm => by
    unfold bootstrapSessions
    dsimp only []
    rcases List.mem_cons.mp hm with hs | hs
    · subst hs
      rw [bs_fileContent_other eid ep rest (i + 1) _ _ _ ?_]
      · rw [writeFile_fileContent_self]
      · intro s2 hs2 heq
        have hsid : sessId s2 = sessId s := by
          have h1 := List.append_cancel_right heq
          have h2 := List.append_cancel_left h1
          exact (List.singleton_inj.mp h2)
        rw [List.map_cons, List.nodup_cons] at hnd
        exact hnd.1 (hsid ▸ List.mem_map_of_mem sessId hs2)
    · rw [List.map_cons, List.nodup_cons] at hnd
      exact bs_stub_content eid ep rest (i + 1) _ _ s hnd.2 hs

theorem bs_pathExists_deep (eid : String) (ep : Path) :
    ∀ (ss : List Val) (i : Nat) (db : DB) (fs : FS) (p : Path),
      p.length = ep.length + 2 → p.getLast? ≠ some "stub.xml" →
      (bootstrapSessions eid ep ss i db fs).2.pathExists p = fs.pathExists p
  | [], _, _, _, _, _, _ => rfl
  | s0 :: rest, i, db, fs, p, hlen, hlast => by
    unfold bootstrapSessions
    dsimp only []
    rw [bs_pathExists_deep eid ep rest (i + 1) _ _ p hlen hlast]
    unfold FS.pathExists
    have hfc : ((fs.mkdirRecursive (ep ++ [sessId s0])).writeFile
        (ep ++ [sessId s0] ++ ["stub.xml"]) (stubOf s0)).fileExists p =
        fs.fileExists p := by
      unfold FS.fileExists
      rw [writeFile_fileContent_ne, mkdir_fileContent]
      intro heq
      apply hlast
      rw [← heq]
      rw [List.append_assoc, List.getLast?_append]
      rfl
    rw [hfc, writeFile_isDir]
    have hdir : (fs.mkdirRecursive (ep ++ [sessId s0])).isDir p = fs.isDir p := by
      unfold FS.isDir FS.mkdirRecursive
      rw [memPath_append]
      cases hmp : memPath (pathAncestors (ep ++ [sessId s0])) p with
      | false => rfl
      | true =>
        have := pathAncestors_short _ _ hmp
        rw [List.length_append] at this
        simp at this
        omega
    rw [hdir]

theorem bs_isDir_ep (eid : String) (ep : Path) (hep : ep ≠ []) :
    ∀ (ss : List Val) (i : Nat) (db : DB) (fs : FS), ss ≠ [] →
      (bootstrapSessions eid ep ss i db fs).2.isDir ep = true
  | [], _, _, _, hne => absurd rfl hne
  | s0 :: rest, i, db, fs, _ => by
    unfold bootstrapSessions
    dsimp only []
    refine bs_isDir_mono eid ep rest (i + 1) _ _ _ ?_
    rw [writeFile_isDir]
    unfold FS.isDir FS.mkdirRecursive
    rw [memPath_append]
    rw [pre_mem_pathAncestors ep (sessId s0) hep]
    rfl


theorem cce_false_db (jl : String → Option Val) (cfg : Config) (db db2 : DB)
    (data : Dict) :
    check_election_data jl cfg db data false = check_election_data jl cfg db2 data false := by
  rw [cce_spec, cce_spec]
  unfold amendedFirstViolation
  simp only [Bool.false_and, Bool.false_eq_true, if_false]

theorem gpi_validate_db_irrel (jl : String → Option Val) (cfg : Config)
    (db db2 : DB) (input : Dict) :
    gpi_validate jl cfg db input = gpi_validate jl cfg db2 input := by
  unfold gpi_validate
  cases dGet? input "election_id" with
  | none => rfl
  | some v =>
    cases v <;> first
      | rfl
      | rw [cce_false_db jl cfg db db2 input]

theorem gpi_validate_none_facts (jl : String → Option Val) (cfg : Config) (db : DB)
    (input : Dict) (h : gpi_validate jl cfg db input = none) :
    (∃ eid, dGet? input "election_id" = some (Val.str eid)) ∧
    check_election_data jl cfg db input false = .ok () ∧
    (Val.asList (dGetD input "sessions" Val.null)).length ≠ 0 := by
  unfold gpi_validate at h
  cases he : dGet? input "election_id" with
  | none => rw [he] at h; simp at h
  | some v =>
    rw [he] at h
    cases v with
    | str eid =>
      dsimp only [] at h
      cases hc : check_election_data jl cfg db input false with
      | error r => rw [hc] at h; simp at h
      | ok u =>
        rw [hc] at h
        dsimp only [] at h
        by_cases hsl : (!(dGetD input "sessions" Val.null).isList ||
            decide ((Val.asList (dGetD input "sessions" Val.null)).length = 0)) = true
        · rw [hsl] at h; simp at h
        · simp only [hsl, Bool.false_eq_true, if_false] at h
          simp only [Bool.or_eq_true, not_or] at hsl
          push_neg at hsl
          refine ⟨⟨eid, rfl⟩, rfl, ?_⟩
          have := hsl.2
          simpa using this
    | null => simp at h
    | boolean b => simp at h
    | int n => simp at h
    | date d => simp at h
    | list l => simp at h
    | dict d => simp at h


theorem gpi_performer_ok (jl : String → Option Val) (cfg : Config)
    (cert : String) (input : Dict) (st : OState) (r : List AddedTask)
    (hcd : certs_differ cert cfg.ssl_cert_string = true)
    (h : (generate_private_info jl cfg cert input st).1 = .ok r) :
    gpi_validate jl cfg st.db input = none ∧
    gpi_protinfo_guard
      (cfg.private_data_path ++ [Val.asStr (dGetD input "election_id" Val.null)])
      (Val.asList (dGetD input "sessions" Val.null)) st.fs = none ∧
    st.fs.pathExists
      (cfg.private_data_path ++ [Val.asStr (dGetD input "election_id" Val.null)]) = false ∧
    (generate_private_info jl cfg cert input st).2 =
      ⟨(bootstrapSessions (Val.asStr (dGetD input "election_id" Val.null))
          (cfg.private_data_path ++ [Val.asStr (dGetD input "election_id" Val.null)])
          (Val.asList (dGetD input "sessions" Val.null)) 0
          { st.db with
            elections := st.db.elections ++ [mkElection input]
            authorities := st.db.authorities ++
              mkAuthorities (Val.asStr (dGetD input "election_id" Val.null))
                (Val.asList (dGetD input "authorities" Val.null)) } st.fs).1,
        (bootstrapSessions (Val.asStr (dGetD input "election_id" Val.null))
          (cfg.private_data_path ++ [Val.asStr (dGetD input "election_id" Val.null)])
          (Val.asList (dGetD input "sessions" Val.null)) 0
          { st.db with
            elections := st.db.elections ++ [mkElection input]
            authorities := st.db.authorities ++
              mkAuthorities (Val.asStr (dGetD input "election_id" Val.null))
                (Val.asList (dGetD input "authorities" Val.null)) } st.fs).2⟩ := by
  unfold generate_private_info at h ⊢
  cases hv : gpi_validate jl cfg st.db input with
  | some e => rw [hv] at h; simp at h
  | none =>
    rw [hv] at h
    dsimp only [] at h ⊢
    cases hg : gpi_protinfo_guard
        (cfg.private_data_path ++ [Val.asStr (dGetD input "election_id" Val.null)])
        (Val.asList (dGetD input "sessions" Val.null)) st.fs with
    | some e => rw [hg] at h; simp at h
    | none =>
      rw [hg] at h
      dsimp only [] at h ⊢
      rw [hcd] at h ⊢
      simp only [if_true] at h ⊢
      cases hpe : st.fs.pathExists
          (cfg.private_data_path ++ [Val.asStr (dGetD input "election_id" Val.null)]) with
      | true => rw [hpe] at h; simp at h
      | false =>
        rw [hpe] at h
        simp only [Bool.false_eq_true, if_false] at h ⊢
        by_cases hnp : (!dMem input "num_parties" || !dMem input "threshold_parties") = true
        · rw [hnp] at h; simp at h
        · simp only [hnp, Bool.false_eq_true, if_false] at h ⊢
          refine ⟨trivial, trivial, trivial, ?_⟩
          by_cases ha : (!cfg.autoaccept_requests) = true
          · simp only [ha, if_true] at h ⊢
            cases hq : loadsVal jl (dGetD input "questions_data" Val.null) with
            | none => simp [hq] at h
            | some q => rfl
          · simp only [ha, Bool.false_eq_true, if_false] at h ⊢

theorem gpi_director_state (jl : String → Option Val) (cfg : Config)
    (cert : String) (input : Dict) (st : OState)
    (hcd : certs_differ cert cfg.ssl_cert_string = false) :
    (generate_private_info jl cfg cert input st).2 = st := by
  unfold generate_private_info
  cases hv : gpi_validate jl cfg st.db input with
  | some e => rfl
  | none =>
    dsimp only []
    cases hg : gpi_protinfo_guard
        (cfg.private_data_path ++ [Val.asStr (dGetD input "election_id" Val.null)])
        (Val.asList (dGetD input "sessions" Val.null)) st.fs with
    | some e => rfl
    | none =>
      dsimp only []
      rw [hcd]
      simp only [Bool.false_eq_true, if_false]
      by_cases ha : (!cfg.autoaccept_requests) = true
      · simp only [ha, if_true]
        cases hf : st.db.elections.find? (fun e => e.id == Val.asStr (dGetD input "election_id" Val.null)) with
        | none => rfl
        | some e =>
          dsimp only []
          cases loadsVal jl (dGetD input "questions_data" Val.null) <;> rfl
      · simp only [ha, Bool.false_eq_true, if_false]


theorem isDir_pathExists (fs : FS) (p : Path)
    (h : fs.isDir p = true) : fs.pathExists p = true := by
  simp [FS.pathExists, h]

theorem guard_none_iff (ep : Path) (ss : List Val) (fs : FS) :
    gpi_protinfo_guard ep ss fs = none ↔
      ∀ s ∈ ss, fs.pathExists (ep ++ [sessId s, "localProtInfo.xml"]) = false := by
  unfold gpi_protinfo_guard
  rw [List.findSome?_eq_none_iff]
  constructor
  · intro h s hm
    have := h s hm
    by_cases hp : fs.pathExists (ep ++ [sessId s, "localProtInfo.xml"]) = true
    · rw [if_pos hp] at this; simp at this
    · simpa using hp
  · intro h s hm
    rw [if_neg]
    simp [h s hm]

theorem gpi_already_exists (jl : String → Option Val) (cfg : Config)
    (cert : String) (input : Dict) (st : OState)
    (hcd : certs_differ cert cfg.ssl_cert_string = true)
    (hv : gpi_validate jl cfg st.db input = none)
    (hg : gpi_protinfo_guard
      (cfg.private_data_path ++ [Val.asStr (dGetD input "election_id" Val.null)])
      (Val.asList (dGetD input "sessions" Val.null)) st.fs = none)
    (hpe : st.fs.pathExists
      (cfg.private_data_path ++ [Val.asStr (dGetD input "election_id" Val.null)]) = true) :
    generate_private_info jl cfg cert input st =
      (.error (.taskError ("Already existing election id " ++
          Val.asStr (dGetD input "election_id" Val.null))), st) := by
  unfold generate_private_info
  rw [hv]
  dsimp only []
  rw [hg]
  dsimp only []
  rw [hcd]
  simp only [if_true]
  rw [hpe]
  simp only [if_true]

theorem votingDateBad_false (data : Dict) (key : String)
    (h : votingDateBad data key = false) :
    dMem data key = true ∧
    ((dGetD data key Val.null).isNull = true ∨ (dGetD data key Val.null).isDate = true) := by
  simp only [votingDateBad, Bool.or_eq_false_iff, Bool.and_eq_false_iff,
    Bool.not_eq_false] at h
  rcases h with ⟨h1, h2⟩
  refine ⟨by simpa using h1, ?_⟩
  rcases h2 with h2 | h2
  · exact Or.inl (by simpa using h2)
  · exact Or.inr (by simpa using h2)


theorem gpi_director_fetch (jl : String → Option Val) (cfg : Config)
    (cert : String) (input : Dict) (st : OState) (r : List AddedTask)
    (hcd : certs_differ cert cfg.ssl_cert_string = false)
    (ha : cfg.autoaccept_requests = false)
    (h : (generate_private_info jl cfg cert input st).1 = .ok r) :
    (st.db.elections.find? (fun e => e.id ==
      Val.asStr (dGetD input "election_id" Val.null))).isSome = true := by
  unfold generate_private_info at h
  cases hv : gpi_validate jl cfg st.db input with
  | some e => rw [hv] at h; simp at h
  | none =>
    rw [hv] at h
    dsimp only [] at h
    cases hg : gpi_protinfo_guard
        (cfg.private_data_path ++ [Val.asStr (dGetD input "election_id" Val.null)])
        (Val.asList (dGetD input "sessions" Val.null)) st.fs with
    | some e => rw [hg] at h; simp at h
    | none =>
      rw [hg] at h
      dsimp only [] at h
      rw [hcd] at h
      simp only [Bool.false_eq_true, if_false] at h
      simp only [ha, Bool.not_false, if_true] at h
      cases hf : st.db.elections.find? (fun e => e.id ==
          Val.asStr (dGetD input "election_id" Val.null)) with
      | none => rw [hf] at h; simp at h
      | some e => simp [hf]

/-- C5: the role decision is a deterministic function of the certificate
comparison.  When the sender certificate differs from the local one
(performer path), a successful run appends exactly the Election row built
from the payload, one Authority row per entry, and one Session row per
session with status "default" and ordinal question number in list order,
and creates each per-session private directory with its stub file.  When
the certificates match (director path), the state is left untouched and,
with auto-accept off, a successful run requires the Election to already be
in the store (it is fetched, not created). -/
theorem c5_role_resolver (jl : String → Option Val) (cfg : Config)
    (cert : String) (input : Dict) (st : OState) (r : List AddedTask) :
    (certs_differ cert cfg.ssl_cert_string = true →
      (generate_private_info jl cfg cert input st).1 = .ok r →
      ((generate_private_info jl cfg cert input st).2.db.elections =
          st.db.elections ++ [mkElection input] ∧
       (generate_private_info jl cfg cert input st).2.db.authorities =
          st.db.authorities ++
            mkAuthorities (Val.asStr (dGetD input "election_id" Val.null))
              (Val.asList (dGetD input "authorities" Val.null)) ∧
       (generate_private_info jl cfg cert input st).2.db.sessions =
          st.db.sessions ++
            sessionRowsFrom (Val.asStr (dGetD input "election_id" Val.null))
              (Val.asList (dGetD input "sessions" Val.null)) 0 ∧
       (∀ k, ∀ hk : k < (Val.asList (dGetD input "sessions" Val.null)).length,
         (sessionRowsFrom (Val.asStr (dGetD input "election_id" Val.null))
             (Val.asList (dGetD input "sessions" Val.null)) 0).get? k =
           some { id := sessId ((Val.asList (dGetD input "sessions" Val.null)).get ⟨k, hk⟩),
                  election_id := Val.asStr (dGetD input "election_id" Val.null),
                  status := "default", public_key := "", question_number := k }) ∧
       (∀ s ∈ Val.asList (dGetD input "sessions" Val.null),
         (generate_private_info jl cfg cert input st).2.fs.isDir
           (cfg.private_data_path ++ [Val.asStr (dGetD input "election_id" Val.null)]
             ++ [sessId s]) = true ∧
         (generate_private_info jl cfg cert input st).2.fs.fileExists
           (cfg.private_data_path ++ [Val.asStr (dGetD input "election_id" Val.null)]
             ++ [sessId s] ++ ["stub.xml"]) = true))) ∧
    (certs_differ cert cfg.ssl_cert_string = false →
      ((generate_private_info jl cfg cert input st).2 = st ∧
       (cfg.autoaccept_requests = false →
         (generate_private_info jl cfg cert input st).1 = .ok r →
         (st.db.elections.find? (fun e => e.id ==
           Val.asStr (dGetD input "election_id" Val.null))).isSome = true))) := by
  constructor
  · intro hcd h
    obtain ⟨hv, hg, hpe, hst2⟩ := gpi_performer_ok jl cfg cert input st r hcd h
    rw [hst2]
    dsimp only []
    refine ⟨?_, ?_, ?_, ?_, ?_⟩
    · rw [bs_elections]
    · rw [bs_authorities]
    · rw [bs_sessions]
    · intro k hk
      rw [sessionRowsFrom_get _ _ 0 k hk]
      simp
    · intro s hs
      exact ⟨bs_isDir_session _ _ _ _ _ _ s hs, bs_stub_exists _ _ _ _ _ _ s hs⟩
  · intro hcd
    exact ⟨gpi_director_state jl cfg cert input st hcd,
      fun ha h => gpi_director_fetch jl cfg cert input st r hcd ha h⟩

/-- C2 amended: replaying the performer bootstrap after a successful first
run fails, but with reason "Already existing election id <id>" (the
directory-existence guard), not a reason containing "already created" (the
per-session descriptor guard never fires, since the bootstrap does not
create local descriptor files); the failing second attempt leaves the
state exactly as the first run left it, with no partial rows, directories
or files. -/
theorem c2_bootstrap_replay_amended (jl : String → Option Val) (cfg : Config)
    (cert : String) (input : Dict) (st : OState) (r : List AddedTask)
    (hcd : certs_differ cert cfg.ssl_cert_string = true)
    (h1 : (generate_private_info jl cfg cert input st).1 = .ok r) :
    generate_private_info jl cfg cert input
        ((generate_private_info jl cfg cert input st).2) =
      (.error (.taskError ("Already existing election id " ++
          Val.asStr (dGetD input "election_id" Val.null))),
        (generate_private_info jl cfg cert input st).2) := by
  obtain ⟨hv, hg, hpe, hst2⟩ := gpi_performer_ok jl cfg cert input st r hcd h1
  obtain ⟨⟨eid0, heid⟩, hcc, hsl⟩ := gpi_validate_none_facts jl cfg st.db input hv
  apply gpi_already_exists jl cfg cert input _ hcd
  · exact (gpi_validate_db_irrel jl cfg _ st.db input).trans hv
  · rw [hst2]
    dsimp only []
    rw [guard_none_iff]
    intro s hs
    rw [bs_pathExists_deep]
    · exact (guard_none_iff _ _ _).mp hg s hs
    · simp
    · simp [List.getLast?_append]
  · rw [hst2]
    dsimp only []
    apply isDir_pathExists
    apply bs_isDir_ep
    · simp
    · intro hnil
      rw [hnil] at hsl
      simp at hsl

/-- C9 amended: a successful performer run stores the submitted voting
window verbatim in the created Election row; validation only ensures each
bound is null or a timestamp, and no ordering between start and end is
enforced. -/
theorem c9_voting_window_amended (jl : String → Option Val) (cfg : Config)
    (cert : String) (input : Dict) (st : OState) (r : List AddedTask)
    (hcd : certs_differ cert cfg.ssl_cert_string = true)
    (h : (generate_private_info jl cfg cert input st).1 = .ok r) :
    (generate_private_info jl cfg cert input st).2.db.elections =
      st.db.elections ++ [mkElection input] ∧
    (mkElection input).voting_start_date = dGetD input "voting_start_date" Val.null ∧
    (mkElection input).voting_end_date = dGetD input "voting_end_date" Val.null ∧
    ((dGetD input "voting_start_date" Val.null).isNull = true ∨
      (dGetD input "voting_start_date" Val.null).isDate = true) ∧
    ((dGetD input "voting_end_date" Val.null).isNull = true ∨
      (dGetD input "voting_end_date" Val.null).isDate = true) := by
  obtain ⟨hv, hg, hpe, hst2⟩ := gpi_performer_ok jl cfg cert input st r hcd h
  obtain ⟨⟨eid0, heid⟩, hcc, hsl⟩ := gpi_validate_none_facts jl cfg st.db input hv
  have hfv : amendedFirstViolation jl cfg st.db input false = none := by
    rw [cce_spec] at hcc
    exact (violationResult_ok_iff _).mp hcc
  have hrules := (amendedFV_none_iff jl cfg st.db input false).mp hfv
  simp only [Bool.and_eq_true] at hrules
  obtain ⟨hs, he⟩ := rule3_components input hrules.1.1.1.1.1.2
  obtain ⟨hk1, hsd⟩ := votingDateBad_false input "voting_start_date" hs
  obtain ⟨hk2, hed⟩ := votingDateBad_false input "voting_end_date" he
  refine ⟨?_, rfl, rfl, hsd, hed⟩
  rw [hst2]
  dsimp only []
  rw [bs_elections]


/-- C2 counterexample: on a concrete payload the second bootstrap run
fails with "Already existing election id myel", whose reason does not
contain the claimed "already created". -/
theorem c2_bootstrap_replay_counterexample :
    (generate_private_info jl0 cfg0 "CERT2" goodInput
        ((generate_private_info jl0 cfg0 "CERT2" goodInput st0).2)).1 =
      .error (.taskError "Already existing election id myel") ∧
    strContains "Already existing election id myel" "already created" = false ∧
    (generate_private_info jl0 cfg0 "CERT2" goodInput
        ((generate_private_info jl0 cfg0 "CERT2" goodInput st0).2)).2 =
      (generate_private_info jl0 cfg0 "CERT2" goodInput st0).2 := by
  refine ⟨by decide, by decide, by decide⟩

/-- C9 counterexample: a submission with voting_start_date after
voting_end_date is accepted and creates an Election row with the reversed
window, refuting the claimed invariant. -/
theorem c9_voting_window_counterexample :
    (generate_private_info jl0 cfg0 "CERT2" reversedDatesInput st0).1 =
      .ok [.simple "generate_private_info_verificatum" "orchestra_performer"] ∧
    (generate_private_info jl0 cfg0 "CERT2" reversedDatesInput st0).2.db.elections.map
        (fun e => (e.voting_start_date, e.voting_end_date)) =
      [(Val.date 20, Val.date 10)] := by
  refine ⟨by decide, by decide⟩

/-- C5 witness: the performer branch applied to a concrete payload. -/
theorem c5_role_resolver_witness :
    certs_differ "CERT2" cfg0.ssl_cert_string = true ∧
    (generate_private_info jl0 cfg0 "CERT2" goodInput st0).1 =
      .ok [.simple "generate_private_info_verificatum" "orchestra_performer"] ∧
    (generate_private_info jl0 cfg0 "CERT2" goodInput st0).2.db.elections =
      st0.db.elections ++ [mkElection goodInput] :=
  ⟨by decide, by decide,
    ((c5_role_resolver jl0 cfg0 "CERT2" goodInput st0
        [.simple "generate_private_info_verificatum" "orchestra_performer"]).1
      (by decide) (by decide)).1⟩

/-- C2 witness: the amended replay theorem applied to a concrete payload. -/
theorem c2_bootstrap_replay_witness :
    certs_differ "CERT2" cfg0.ssl_cert_string = true ∧
    (generate_private_info jl0 cfg0 "CERT2" goodInput st0).1 =
      .ok [.simple "generate_private_info_verificatum" "orchestra_performer"] ∧
    generate_private_info jl0 cfg0 "CERT2" goodInput
        ((generate_private_info jl0 cfg0 "CERT2" goodInput st0).2) =
      (.error (.taskError ("Already existing election id " ++
          Val.asStr (dGetD goodInput "election_id" Val.null))),
        (generate_private_info jl0 cfg0 "CERT2" goodInput st0).2) :=
  ⟨by decide, by decide,
    c2_bootstrap_replay_amended jl0 cfg0 "CERT2" goodInput st0
      [.simple "generate_private_info_verificatum" "orchestra_performer"]
      (by decide) (by decide)⟩

/-- C9 witness: the amended theorem applied to the reversed-window payload. -/
theorem c9_voting_window_witness :
    certs_differ "CERT2" cfg0.ssl_cert_string = true ∧
    (generate_private_info jl0 cfg0 "CERT2" reversedDatesInput st0).1 =
      .ok [.simple "generate_private_info_verificatum" "orchestra_performer"] ∧
    ((generate_private_info jl0 cfg0 "CERT2" reversedDatesInput st0).2.db.elections =
      st0.db.elections ++ [mkElection reversedDatesInput] ∧
    (mkElection reversedDatesInput).voting_start_date =
      dGetD reversedDatesInput "voting_start_date" Val.null ∧
    (mkElection reversedDatesInput).voting_end_date =
      dGetD reversedDatesInput "voting_end_date" Val.null ∧
    ((dGetD reversedDatesInput "voting_start_date" Val.null).isNull = true ∨
      (dGetD reversedDatesInput "voting_start_date" Val.null).isDate = true) ∧
    ((dGetD reversedDatesInput "voting_end_date" Val.null).isNull = true ∨
      (dGetD reversedDatesInput "voting_end_date" Val.null).isDate = true)) :=
  ⟨by decide, by decide,
    c9_voting_window_amended jl0 cfg0 "CERT2" reversedDatesInput st0
      [.simple "generate_private_info_verificatum" "orchestra_performer"]
      (by decide) (by decide)⟩

end PerformerJobs
